import Mathlib

/-!
Verification development for the pose-based fall-detection engine
(`src/AI/src/core/yolo_fall_detector.py`, class `YOLOFallDetector`).

The detector is embedded shallowly over the rationals.  Pixel-level image
processing (the cv2 calls inside `_detect_motion_magnitude`) is abstracted:
each input frame carries the motion magnitude that the frame-differencing
step would produce against the previous distinct frame, and the embedding
keeps track of which frame the differencing state (`self.prev_frame`) holds,
so that a repeated differencing call on the same frame yields 0 exactly as
absolute-differencing a frame against itself does.  The two irrational
numeric primitives used by the metric extractors, the square root inside
`np.linalg.norm` and `np.std` and the composition
`np.degrees(np.arccos(np.clip(x, -1, 1)))`, are abstracted as an arbitrary
interpretation `RealOps`; every theorem below is proved for every
interpretation, and concrete witnesses instantiate them with executable
stand-ins.  Exception semantics of the Python `try/except (IndexError,
TypeError)` guards is modelled with the `Option` monad: an out-of-range
index access aborts the metric computation with `none`.
-/

set_option maxRecDepth 10000

namespace FallDetection

/-- Embeds the `PoseState` enum of the source. -/
inductive PoseState where
  | standing
  | sitting
  | lying
  | falling
  | unknown
  deriving DecidableEq, Repr, Inhabited

/-- Embeds the `FallEvent` dataclass.  The optional `frame_data` JPEG bytes
payload is not modelled (it never feeds back into detector state). -/
structure FallEvent where
  timestamp : ℚ
  confidence : ℚ
  location : ℤ × ℤ
  previousState : PoseState
  duration : ℚ
  deriving DecidableEq, Repr, Inhabited

/-- Embeds the configuration surface read from the `config` dict in
`YOLOFallDetector.__init__`.  Model/GPU settings are omitted: they only
select the external pose-estimation backend. -/
structure Config where
  verticalSpeedThreshold : ℚ
  angleThreshold : ℚ
  durationThreshold : ℚ
  cooldownSeconds : ℚ
  lyingAlertThreshold : ℚ
  lyingCooldown : ℚ
  maxMissingFrames : Nat
  motionThreshold : ℚ
  useMotionFallback : Bool
  deriving DecidableEq, Repr

/-- Default configuration values from `__init__`. -/
def cfgDefault : Config :=
  { verticalSpeedThreshold := 0.3
    angleThreshold := 50
    durationThreshold := 0.3
    cooldownSeconds := 5
    lyingAlertThreshold := 3
    lyingCooldown := 10
    maxMissingFrames := 10
    motionThreshold := 0.15
    useMotionFallback := true }

/-- Abstract interpretation of the two irrational numeric primitives used by
the source: `sqrtQ` stands for the square root inside `np.linalg.norm` and
`np.std`, and `arccosDeg` stands for `np.degrees(np.arccos(x))` applied to an
already clipped cosine.  All theorems hold for every interpretation. -/
structure RealOps where
  sqrtQ : ℚ → ℚ
  arccosDeg : ℚ → ℚ

/-- Embeds `np.clip(x, lo, hi)`. -/
def clip (x lo hi : ℚ) : ℚ := min (max x lo) hi

/-- Embeds appending to a `collections.deque` with `maxlen` equal to `cap`:
the new element goes to the back and the front is trimmed to the capacity. -/
def capAppend {α : Type} (cap : Nat) (l : List α) (x : α) : List α :=
  (l ++ [x]).drop ((l.length + 1) - cap)

/-- Embeds `np.mean` over a nonempty Python list (0 on the empty list). -/
def listMean (l : List ℚ) : ℚ := l.foldl (· + ·) 0 / (l.length : ℚ)

/-- Embeds the Python expression `opt or d` on an optional float: Python
falls back to `d` both when `opt` is `None` and when it is the falsy 0.0. -/
def pyOr (opt : Option ℚ) (d : ℚ) : ℚ :=
  match opt with
  | some t => if t = 0 then d else t
  | none => d

/-- Embeds a detected person: the COCO 17-landmark coordinate array
`keypoints` and the per-landmark confidence array, as produced by
`_get_keypoints` and `_get_keypoint_confidence`.  Malformed callers may
supply lists of any length; index accesses beyond the length model the
`IndexError` path of the source. -/
structure Pose where
  kps : List (ℚ × ℚ)
  confs : List ℚ
  deriving DecidableEq, Repr

/-- Embeds `_get_body_center`: midpoint of the two hips when both hip
confidences exceed 0.5; `None` otherwise, including on `IndexError`. -/
def getBodyCenter (kp : List (ℚ × ℚ)) (conf : List ℚ) : Option (ℚ × ℚ) :=
  match kp.get? 11, kp.get? 12, conf.get? 11, conf.get? 12 with
  | some lh, some rh, some lc, some rc =>
      if lc > 0.5 ∧ rc > 0.5 then
        some ((lh.1 + rh.1) / 2, (lh.2 + rh.2) / 2)
      else none
  | _, _, _, _ => none

/-- Embeds `_get_body_bbox_ratio`: width/height of the box over landmarks
with confidence above `minConf`; `None` with fewer than 4 visible landmarks
or a box height below 10 pixels. -/
def getBodyBboxAspect (kp : List (ℚ × ℚ)) (conf : List ℚ) (minConf : ℚ) : Option ℚ :=
  let visible := (kp.zip conf).filterMap (fun pc => if pc.2 > minConf then some pc.1 else none)
  if visible.length < 4 then none
  else
    let xs := visible.map Prod.fst
    let ys := visible.map Prod.snd
    let xMin := xs.foldl min (xs.headD 0)
    let xMax := xs.foldl max (xs.headD 0)
    let yMin := ys.foldl min (ys.headD 0)
    let yMax := ys.foldl max (ys.headD 0)
    let width := xMax - xMin
    let height := yMax - yMin
    if height < 10 then none else some (width / height)

/-- Embeds `_get_head_hip_vertical_diff`, including the evaluation order of
the landmark accesses: any out-of-range access aborts with `None` exactly
where the Python `IndexError` would be raised. -/
def getHeadHipDiff (kp : List (ℚ × ℚ)) (conf : List ℚ) : Option ℚ := do
  let c0 ← conf.get? 0
  let headY ←
    if c0 > 0.5 then do
      let p0 ← kp.get? 0
      pure (some p0.2)
    else do
      let c1 ← conf.get? 1
      if c1 > 0.5 then do
        let c2 ← conf.get? 2
        if c2 > 0.5 then do
          let p1 ← kp.get? 1
          let p2 ← kp.get? 2
          pure (some ((p1.2 + p2.2) / 2))
        else pure none
      else pure none
  let c11 ← conf.get? 11
  let hipY ←
    if c11 > 0.5 then do
      let c12 ← conf.get? 12
      if c12 > 0.5 then do
        let p11 ← kp.get? 11
        let p12 ← kp.get? 12
        pure (some ((p11.2 + p12.2) / 2))
      else pure none
    else pure none
  match headY, hipY with
  | some hy, some py => pure (py - hy)
  | _, _ => none

/-- Embeds one leg of `_get_leg_angle`: hip and ankle indices, confidence
gates at 0.4, a magnitude gate at 10 pixels, and the angle of the hip-to-
ankle vector against the downward vertical. -/
def legAngleOf (ops : RealOps) (kp : List (ℚ × ℚ)) (conf : List ℚ)
    (hipIdx ankIdx : Nat) (acc : List ℚ) : Option (List ℚ) := do
  let cHip ← conf.get? hipIdx
  if cHip > 0.4 then do
    let cAnk ← conf.get? ankIdx
    if cAnk > 0.4 then do
      let hip ← kp.get? hipIdx
      let ank ← kp.get? ankIdx
      let vx := ank.1 - hip.1
      let vy := ank.2 - hip.2
      let mag := ops.sqrtQ (vx * vx + vy * vy)
      if mag > 10 then
        let cosAngle := clip ((vx * 0 + vy * 1) / mag) (-1) 1
        pure (acc ++ [ops.arccosDeg cosAngle])
      else pure acc
    else pure acc
  else pure acc

/-- Embeds `_get_leg_angle`: mean of the per-leg angles over the available
legs, `None` when neither leg qualifies or an index access fails. -/
def getLegAngle (ops : RealOps) (kp : List (ℚ × ℚ)) (conf : List ℚ) : Option ℚ := do
  let acc1 ← legAngleOf ops kp conf 11 15 []
  let acc2 ← legAngleOf ops kp conf 12 16 acc1
  if acc2 = [] then none else pure (listMean acc2)

/-- Embeds `_get_body_angle`: trunk angle between the hip-center-to-
shoulder-center vector and the upward vertical, requiring all four
shoulder/hip confidences above 0.5.  The source computes the norm of the
constant vertical vector `[0, -1]` through `np.linalg.norm`, which the
abstract interpretation renders as `sqrtQ 1`. -/
def getBodyAngle (ops : RealOps) (kp : List (ℚ × ℚ)) (conf : List ℚ) : Option ℚ := do
  let ls ← kp.get? 5
  let rs ← kp.get? 6
  let lh ← kp.get? 11
  let rh ← kp.get? 12
  let c5 ← conf.get? 5
  if c5 > 0.5 then do
    let c6 ← conf.get? 6
    if c6 > 0.5 then do
      let c11 ← conf.get? 11
      if c11 > 0.5 then do
        let c12 ← conf.get? 12
        if c12 > 0.5 then
          let scx := (ls.1 + rs.1) / 2
          let scy := (ls.2 + rs.2) / 2
          let hcx := (lh.1 + rh.1) / 2
          let hcy := (lh.2 + rh.2) / 2
          let bvx := scx - hcx
          let bvy := scy - hcy
          let mag1 := ops.sqrtQ (bvx * bvx + bvy * bvy)
          let mag2 := ops.sqrtQ 1
          if mag1 > 0 ∧ mag2 > 0 then
            let dot := bvx * 0 + bvy * (-1)
            let cosAngle := clip (dot / (mag1 * mag2)) (-1) 1
            pure (ops.arccosDeg cosAngle)
          else none
        else none
      else none
    else none
  else none

/-- Sums the vertical displacements and time deltas over consecutive pairs
with non-`None` centers and positive time delta, embedding the loop body of
`_calculate_vertical_speed`. -/
def accumDyDt : List (Option (ℚ × ℚ) × ℚ) → ℚ × ℚ
  | [] => (0, 0)
  | [_] => (0, 0)
  | (c0, t0) :: (c1, t1) :: rest =>
      let s := accumDyDt ((c1, t1) :: rest)
      match c0, c1 with
      | some p0, some p1 =>
          if t1 - t0 > 0 then (s.1 + (p1.2 - p0.2), s.2 + (t1 - t0)) else s
      | _, _ => s

/-- Embeds `_calculate_vertical_speed` over the center and timestamp
histories after the current frame has been appended.  The source zips the
last five centers with the last five timestamps; histories are appended in
lockstep so the lengths always agree. -/
def calcVerticalSpeed (centerHist : List (Option (ℚ × ℚ))) (timeHist : List ℚ)
    (frameHeight : Option ℚ) : ℚ :=
  if centerHist.length < 2 ∨ timeHist.length < 2 then 0
  else
    let recentC := centerHist.drop (centerHist.length - 5)
    let recentT := timeHist.drop (timeHist.length - 5)
    if recentC.length < 2 then 0
    else
      let s := accumDyDt (recentC.zip recentT)
      if s.2 > 0 then
        let speedPixels := s.1 / s.2
        match frameHeight with
        | some h => if h > 0 then speedPixels / h else speedPixels / 1000
        | none => speedPixels / 1000
      else 0

/-- Embeds `_calculate_acceleration`.  The caller in `process_frame` appends
the current speed to the velocity history before invoking it, so the
`velocity_history[-1]` read below yields the current speed itself. -/
def calcAcceleration (velHist timeHist : List ℚ) (currentSpeed currentTime : ℚ) : ℚ :=
  if velHist.length < 2 ∨ timeHist.length < 2 then 0
  else
    let prevSpeed := velHist.getD (velHist.length - 1) 0
    let prevTime := timeHist.getD (timeHist.length - 2) 0
    let dt := currentTime - prevTime
    if dt > 0 then (currentSpeed - prevSpeed) / dt else 0

/-- Embeds `_calculate_stability_score`: a base-of-support factor from the
ankle separation (penalty 0.5 when either ankle confidence is at most 0.5)
and a sway factor from the standard deviation of the last five center x
positions, clamped to the unit interval; 0.5 on an index failure. -/
def calcStability (ops : RealOps) (kp : List (ℚ × ℚ)) (conf : List ℚ)
    (centerHist : List (Option (ℚ × ℚ))) : ℚ :=
  match kp.get? 15, kp.get? 16, conf.get? 15, conf.get? 16 with
  | some la, some ra, some lac, some rac =>
      let s1 : ℚ := 1
      let s2 :=
        if lac > 0.5 ∧ rac > 0.5 then
          let feet := ops.sqrtQ ((la.1 - ra.1) * (la.1 - ra.1) + (la.2 - ra.2) * (la.2 - ra.2))
          let baseScore := min (feet / 200) 1
          s1 * (0.3 + 0.7 * baseScore)
        else s1 * 0.5
      let s3 :=
        if centerHist.length ≥ 5 then
          let recent := centerHist.drop (centerHist.length - 5)
          if recent.all Option.isSome then
            let xs := recent.filterMap (Option.map Prod.fst)
            let m := listMean xs
            let sway := ops.sqrtQ (listMean (xs.map (fun x => (x - m) * (x - m))))
            let swayScore := max 0 (1 - sway / 50)
            s2 * swayScore
          else s2
        else s2
      max 0 (min 1 s3)
  | _, _, _, _ => 0.5

/-- Embeds `_calculate_fall_confidence`: the weighted fusion of angle (30%),
downward velocity (25%), acceleration (20%), instability (15%) and vertical
position (bonus 0.10 or penalty factor 0.8), clamped to the unit
interval; 0 when the angle is unavailable. -/
def fallConfidence (cfg : Config) (angle : Option ℚ) (vspeed accel stab : ℚ)
    (centerYNorm : Option ℚ) : ℚ :=
  match angle with
  | none => 0
  | some a =>
      let angleScore := if a > 30 then min ((a - 30) / 60) 1 else 0
      let score1 := angleScore * 0.30
      let speedScore := if vspeed > 0 then min (vspeed / cfg.verticalSpeedThreshold) 1 else 0
      let score2 := score1 + speedScore * 0.25
      let accelScore := if accel > 0.5 then min (accel / 2) 1 else 0
      let score3 := score2 + accelScore * 0.20
      let score4 := score3 + (1 - stab) * 0.15
      let score5 :=
        match centerYNorm with
        | some y =>
            if y > 0.7 ∧ a > 60 then score4 + 0.10
            else if y < 0.4 then score4 * 0.8
            else score4
        | none => score4
      max 0 (min 1 score5)

/-- Vote totals of the posture voter inside `_determine_pose_state`. -/
structure Votes where
  lying : Nat
  sitting : Nat
  standing : Nat
  deriving DecidableEq, Repr

/-- Adds two vote totals. -/
def Votes.add (a b : Votes) : Votes :=
  { lying := a.lying + b.lying
    sitting := a.sitting + b.sitting
    standing := a.standing + b.standing }

/-- Embeds the final decision of `_determine_pose_state` over the three vote
totals: the first branch returns lying when lying holds the maximum and
strictly exceeds sitting, the second returns sitting when sitting holds the
maximum and strictly exceeds standing, and everything else returns
standing. -/
def decidePosture (lyingScore sittingScore standingScore : Nat) : PoseState :=
  let maxScore := max lyingScore (max sittingScore standingScore)
  if maxScore = lyingScore ∧ lyingScore > sittingScore then PoseState.lying
  else if maxScore = sittingScore ∧ sittingScore > standingScore then PoseState.sitting
  else PoseState.standing

/-- Embeds the normalization of the body-center y position to the frame
height performed at the top of `_determine_pose_state`. -/
def normalizedYOf (centerY frameHeight : Option ℚ) : Option ℚ :=
  match centerY, frameHeight with
  | some cy, some fh => if fh > 0 then some (cy / fh) else none
  | _, _ => none

/-- Embeds `_determine_pose_state`: `Unknown` without a trunk angle, the
`FALLING` gate combining the fused confidence with the velocity/stability
conjunction (the source expresses the gate as two nested conditionals that
fall through to the voter when the inner test fails), then the five-factor
banded voting resolved by `decidePosture`. -/
def determinePoseState (cfg : Config) (ops : RealOps) (angle : Option ℚ)
    (vspeed accel stab : ℚ) (kpc : Option Pose)
    (centerY frameHeight : Option ℚ) : PoseState :=
  match angle with
  | none => PoseState.unknown
  | some a =>
      let normalizedY := normalizedYOf centerY frameHeight
      let bboxAspect := match kpc with
        | some p => getBodyBboxAspect p.kps p.confs 0.3
        | none => none
      let headHipDiff := match kpc with
        | some p => getHeadHipDiff p.kps p.confs
        | none => none
      let legAngle := match kpc with
        | some p => getLegAngle ops p.kps p.confs
        | none => none
      let fc := fallConfidence cfg (some a) vspeed accel stab normalizedY
      if fc > 0.6 ∧ (vspeed > cfg.verticalSpeedThreshold * 0.3 ∨ stab < 0.3) then
        PoseState.falling
      else
        let v1 : Votes :=
          if a > 70 then ⟨3, 0, 0⟩
          else if a > 50 then ⟨1, 2, 0⟩
          else if a > 30 then ⟨0, 3, 0⟩
          else ⟨0, 0, 3⟩
        let v2 : Votes :=
          match bboxAspect with
          | some r =>
              if r > 1.5 then ⟨3, 0, 0⟩
              else if r > 1.0 then ⟨2, 1, 0⟩
              else if r > 0.7 then ⟨0, 2, 0⟩
              else ⟨0, 0, 2⟩
          | none => ⟨0, 0, 0⟩
        let v3 : Votes :=
          match headHipDiff with
          | some d =>
              if d < 20 then ⟨3, 0, 0⟩
              else if d < 50 then ⟨1, 1, 0⟩
              else if d < 100 then ⟨0, 2, 0⟩
              else ⟨0, 0, 2⟩
          | none => ⟨0, 0, 0⟩
        let v4 : Votes :=
          match legAngle with
          | some la =>
              if la > 70 then ⟨2, 0, 0⟩
              else if la > 45 then ⟨1, 2, 0⟩
              else if la > 25 then ⟨0, 2, 0⟩
              else ⟨0, 0, 2⟩
          | none => ⟨0, 0, 0⟩
        let v5 : Votes :=
          match normalizedY with
          | some y =>
              if y > 0.75 then ⟨2, 0, 0⟩
              else if y > 0.6 then ⟨1, 1, 0⟩
              else ⟨0, 0, 0⟩
          | none => ⟨0, 0, 0⟩
        let total := ((((v1.add v2).add v3).add v4).add v5)
        decidePosture total.lying total.sitting total.standing

/-- Embeds `_analyze_motion_pattern`: the magnitude is appended to the
capacity-10 difference history, at least two samples are required, and the
previous sample is the second-to-last entry of the last-five window.  The
unused `avg_motion` and `max_motion` aggregates of the source are omitted;
the `currentTime` argument is likewise unused by the source. -/
def analyzeMotionPattern (thr : ℚ) (hist : List ℚ) (_currentTime m : ℚ) :
    List ℚ × Bool :=
  let hist2 := capAppend 10 hist m
  if hist2.length < 2 then (hist2, false)
  else
    let recent := hist2.drop (hist2.length - 5)
    let prevMotion := recent.getD (recent.length - 2) 0
    let motionChange := m - prevMotion
    if motionChange > thr * 0.6 then (hist2, true)
    else if m > thr * 1.5 then (hist2, true)
    else if m > thr * 1.0 ∧ prevMotion < thr * 0.5 then (hist2, true)
    else (hist2, false)

/-- Embeds the mutable per-session instance state of `YOLOFallDetector`.
The `pose_history` deque is declared by the source but never written or
read, and `motion_detected_frames` is never read; both are omitted.
`prevFrame` tracks which input frame `self.prev_frame` currently holds, by
its position in the driven sequence. -/
structure DetState where
  centerHistory : List (Option (ℚ × ℚ))
  angleHistory : List (Option ℚ)
  timestampHistory : List ℚ
  velocityHistory : List ℚ
  accelerationHistory : List ℚ
  stabilityScores : List ℚ
  currentState : PoseState
  fallStartTime : Option ℚ
  lastFallTime : ℚ
  fallConfirmed : Bool
  lyingStartTime : Option ℚ
  lastLyingAlertTime : ℚ
  missingFrames : Nat
  lastValidCenter : Option (ℚ × ℚ)
  lastValidAngle : Option ℚ
  lastValidSpeed : ℚ
  lastValidAcceleration : ℚ
  wasFallingBeforeMissing : Bool
  framesInFallingState : Nat
  prevFrame : Option Nat
  frameDiffHistory : List ℚ
  deriving DecidableEq, Repr

/-- Embeds the state initialization in `__init__`. -/
def initState : DetState :=
  { centerHistory := []
    angleHistory := []
    timestampHistory := []
    velocityHistory := []
    accelerationHistory := []
    stabilityScores := []
    currentState := PoseState.unknown
    fallStartTime := none
    lastFallTime := 0
    fallConfirmed := false
    lyingStartTime := none
    lastLyingAlertTime := 0
    missingFrames := 0
    lastValidCenter := none
    lastValidAngle := none
    lastValidSpeed := 0
    lastValidAcceleration := 0
    wasFallingBeforeMissing := false
    framesInFallingState := 0
    prevFrame := none
    frameDiffHistory := [] }

/-- Embeds `reset`: it clears the seven rolling histories, the posture
state, the missing-frame bookkeeping and the fall-in-progress flags, and
leaves every other field untouched.  In particular `last_fall_time`,
`lying_start_time`, `last_lying_alert_time`, `prev_frame` and
`frame_diff_history` are preserved. -/
def resetState (st : DetState) : DetState :=
  { st with
    centerHistory := []
    angleHistory := []
    timestampHistory := []
    velocityHistory := []
    accelerationHistory := []
    stabilityScores := []
    currentState := PoseState.unknown
    missingFrames := 0
    lastValidCenter := none
    lastValidAngle := none
    lastValidSpeed := 0
    lastValidAcceleration := 0
    wasFallingBeforeMissing := false
    framesInFallingState := 0
    fallStartTime := none
    fallConfirmed := false }

/-- Embeds one input frame: the optional detected pose (covering all of
the no-results, no-keypoints and no-confidence exits of `process_frame`),
the motion magnitude that frame differencing against the previous distinct
frame would yield, the wall-clock timestamp `time.time()`, and the frame
raster dimensions. -/
structure FrameInput where
  pose : Option Pose
  motionMag : ℚ
  time : ℚ
  frameHeight : ℚ
  frameWidth : ℚ
  deriving DecidableEq, Repr

/-- Embeds the result dictionary of `process_frame`.  `missingFramesOut` is
`some` exactly on the missing-detection paths, whose dictionary carries the
extra `missing_frames` key; those paths omit the lying keys, rendered here
as the no-event values.  The annotated frame is not modelled. -/
structure FrameResult where
  fallDetected : Bool
  fallEvent : Option FallEvent
  state : PoseState
  confidence : ℚ
  angle : Option ℚ
  speed : ℚ
  lyingDetected : Bool
  lyingEvent : Option FallEvent
  missingFramesOut : Option Nat
  deriving DecidableEq, Repr, Inhabited

/-- Embeds `_detect_motion_magnitude` at the frame-identity level: with no
stored previous frame the call returns 0 and stores the current frame;
differencing a frame against itself (the stored frame has the same index)
yields 0; otherwise the call returns the per-frame magnitude input. -/
def detectMotion (st : DetState) (idx : Nat) (mag : ℚ) : ℚ × DetState :=
  match st.prevFrame with
  | none => (0, { st with prevFrame := some idx })
  | some j => (if j = idx then 0 else mag, { st with prevFrame := some idx })

/-- Converts an optional center to the integer event location, embedding
`(int(center[0]), int(center[1])) if center else (0, 0)`. -/
def locOfCenter (c : Option (ℚ × ℚ)) : ℤ × ℤ :=
  match c with
  | some p => (⌊p.1⌋, ⌊p.2⌋)
  | none => (0, 0)

/-- Embeds the pose-based fall branches of `process_frame`: the `FALLING`
branch (immediate trigger with confidence 0.9 behind the `fall_confirmed`
and cooldown gates, setting `fall_start_time` on entry) and the
falling-to-lying confirmation branch (confidence 0.95 behind the same
gates), and the reset of the fall bookkeeping on standing/sitting. -/
def emitGatePose (cfg : Config) (st : DetState) (time : ℚ)
    (newState prevState : PoseState) (center : Option (ℚ × ℚ)) :
    DetState × Option FallEvent :=
  if newState = PoseState.falling then
    let fst := st.fallStartTime.getD time
    let stA := { st with fallStartTime := some fst }
    if ¬ stA.fallConfirmed ∧ time - stA.lastFallTime ≥ cfg.cooldownSeconds then
      ({ stA with fallConfirmed := true, lastFallTime := time },
       some { timestamp := time, confidence := 0.9, location := locOfCenter center,
              previousState := prevState, duration := time - fst })
    else (stA, none)
  else if newState = PoseState.lying ∧ prevState = PoseState.falling then
    if ¬ st.fallConfirmed ∧ time - st.lastFallTime ≥ cfg.cooldownSeconds then
      ({ st with fallConfirmed := true, lastFallTime := time },
       some { timestamp := time, confidence := 0.95, location := locOfCenter center,
              previousState := prevState, duration := time - pyOr st.fallStartTime time })
    else (st, none)
  else
    (if newState = PoseState.standing ∨ newState = PoseState.sitting then
       { st with fallStartTime := none, fallConfirmed := false }
     else st, none)

/-- Embeds the prolonged-lying alert block of `process_frame`: lying starts
the duration tracker, an alert with confidence 0.85 fires once the duration
reaches the threshold and the lying cooldown has elapsed, and any other
state clears the tracker. -/
def lyingGate (cfg : Config) (st : DetState) (time : ℚ)
    (newState prevState : PoseState) (center : Option (ℚ × ℚ)) :
    DetState × Bool × Option FallEvent :=
  if newState = PoseState.lying then
    let lst := st.lyingStartTime.getD time
    let stA := { st with lyingStartTime := some lst }
    let dur := time - lst
    if dur ≥ cfg.lyingAlertThreshold ∧ time - stA.lastLyingAlertTime ≥ cfg.lyingCooldown then
      ({ stA with lastLyingAlertTime := time }, true,
       some { timestamp := time, confidence := 0.85, location := locOfCenter center,
              previousState := prevState, duration := dur })
    else (stA, false, none)
  else ({ st with lyingStartTime := none }, false, none)

/-- Embeds the motion-based fall check of `process_frame` that runs while a
pose is present: the spike analysis appends to the difference history, then
the cooldown, the strict context test (falling state, recent falling,
acceleration above 0.3, or instability combined with downward motion) and
the 1.5-threshold bypass gate the emission with confidence
`0.75 + 0.15 * magnitude`. -/
def motionGateDetected (cfg : Config) (st : DetState) (time motionMag : ℚ)
    (newState : PoseState) (wasF : Bool) (accel stab vspeed : ℚ)
    (center : Option (ℚ × ℚ)) (frameW frameH : ℚ) (prevState : PoseState) :
    DetState × Option FallEvent :=
  let g := analyzeMotionPattern cfg.motionThreshold st.frameDiffHistory time motionMag
  let stA := { st with frameDiffHistory := g.1 }
  if g.2 = true ∧ time - stA.lastFallTime ≥ cfg.cooldownSeconds then
    let contextValid := newState = PoseState.falling ∨ wasF = true ∨ accel > 0.3 ∨
      (stab < 0.4 ∧ vspeed > 0.05)
    if contextValid ∨ motionMag > cfg.motionThreshold * 1.5 then
      let loc := match center with
        | some c => ((⌊c.1⌋ : ℤ), (⌊c.2⌋ : ℤ))
        | none => ((⌊frameW / 2⌋ : ℤ), (⌊frameH / 2⌋ : ℤ))
      ({ stA with fallConfirmed := true, lastFallTime := time },
       some { timestamp := time, confidence := 0.75 + motionMag * 0.15, location := loc,
              previousState := prevState, duration := time - pyOr stA.fallStartTime time })
    else (stA, none)
  else (stA, none)

/-- Runs the fall, lying and motion gates of `process_frame` in source
order over already computed per-frame signals, and finishes the frame by
installing the new posture state.  Returns the updated session state, the
emitted fall event, and the lying flag and event. -/
def fallPipeline (cfg : Config) (st : DetState) (time : ℚ)
    (newState prevState : PoseState) (center : Option (ℚ × ℚ))
    (motionMag accel stab vspeed : ℚ) (wasF : Bool) (frameW frameH : ℚ) :
    DetState × Option FallEvent × Bool × Option FallEvent :=
  let g1 := emitGatePose cfg st time newState prevState center
  let g2 := lyingGate cfg g1.1 time newState prevState center
  let g3 :=
    if g1.2 = (none : Option FallEvent) ∧ cfg.useMotionFallback = true ∧ motionMag > 0 then
      motionGateDetected cfg g2.1 time motionMag newState wasF accel stab vspeed
        center frameW frameH prevState
    else (g2.1, none)
  let ev := match g1.2 with
    | some e => some e
    | none => g3.2
  ({ g3.1 with currentState := newState }, ev, g2.2.1, g2.2.2)

/-- Per-frame signals derived at the top of the successful-detection body
of `process_frame`, together with the session state after all history
appends. -/
structure MetricsOut where
  st : DetState
  center : Option (ℚ × ℚ)
  angle : Option ℚ
  vspeed : ℚ
  accel : ℚ
  stab : ℚ
  deriving DecidableEq, Repr

/-- Embeds the metric-extraction half of the successful-detection body of
`process_frame`: reset the missing counter, extract center and trunk angle,
refresh the last-valid caches, append to the histories, and derive speed,
acceleration and stability in source order. -/
def updateMetrics (ops : RealOps) (st : DetState) (inp : FrameInput) (p : Pose) :
    MetricsOut :=
  let st1 := { st with missingFrames := 0 }
  let center := getBodyCenter p.kps p.confs
  let angle := getBodyAngle ops p.kps p.confs
  let st2 := { st1 with
    lastValidCenter := match center with | some c => some c | none => st1.lastValidCenter
    lastValidAngle := match angle with | some a => some a | none => st1.lastValidAngle }
  let st3 := { st2 with
    centerHistory := capAppend 30 st2.centerHistory center
    angleHistory := capAppend 30 st2.angleHistory angle
    timestampHistory := capAppend 30 st2.timestampHistory inp.time }
  let vspeed := calcVerticalSpeed st3.centerHistory st3.timestampHistory (some inp.frameHeight)
  let st4 := { st3 with velocityHistory := capAppend 30 st3.velocityHistory vspeed,
                        lastValidSpeed := vspeed }
  let accel := calcAcceleration st4.velocityHistory st4.timestampHistory vspeed inp.time
  let st5 := { st4 with accelerationHistory := capAppend 10 st4.accelerationHistory accel,
                        lastValidAcceleration := accel }
  let stab := calcStability ops p.kps p.confs st5.centerHistory
  let st6 := { st5 with stabilityScores := capAppend 30 st5.stabilityScores stab }
  { st := st6, center := center, angle := angle, vspeed := vspeed,
    accel := accel, stab := stab }

/-- Embeds the classification half of the successful-detection body of
`process_frame`: classify the posture, update the falling-streak counter
and the was-falling bookkeeping, and run the event gates. -/
def classifyAndGate (cfg : Config) (ops : RealOps) (m : MetricsOut)
    (inp : FrameInput) (p : Pose) (motionMag : ℚ) :
    DetState × Option FallEvent × Bool × Option FallEvent × PoseState :=
  let centerY := m.center.map Prod.snd
  let newState := determinePoseState cfg ops m.angle m.vspeed m.accel m.stab (some p)
    centerY (some inp.frameHeight)
  let prevState := m.st.currentState
  let fif := if newState = PoseState.falling then m.st.framesInFallingState + 1 else 0
  let st7 := { m.st with framesInFallingState := fif }
  let wasF : Bool :=
    if newState = PoseState.falling ∧ fif ≥ 2 then true
    else if st7.fallStartTime ≠ (none : Option ℚ) ∧ newState ≠ PoseState.standing then true
    else false
  let st8 := { st7 with wasFallingBeforeMissing := wasF }
  let pl := fallPipeline cfg st8 inp.time newState prevState m.center motionMag m.accel
    m.stab m.vspeed wasF inp.frameWidth inp.frameHeight
  (pl.1, pl.2.1, pl.2.2.1, pl.2.2.2, newState)

/-- Embeds the successful-detection body of `process_frame`, assembling the
result dictionary from the metric and gate outcomes. -/
def processDetected (cfg : Config) (ops : RealOps) (st : DetState)
    (inp : FrameInput) (p : Pose) (motionMag : ℚ) : DetState × FrameResult :=
  let m := updateMetrics ops st inp p
  let g := classifyAndGate cfg ops m inp p motionMag
  (g.1,
   { fallDetected := g.2.1.isSome
     fallEvent := g.2.1
     state := g.2.2.2.2
     confidence := if g.2.1.isSome then 0.95 else if g.2.2.1 then 0.85 else 0
     angle := m.angle
     speed := m.vspeed
     lyingDetected := g.2.2.1
     lyingEvent := g.2.2.2.1
     missingFramesOut := none })

/-- Location of a missing-detection motion event, embedding
`self.last_valid_center if self.last_valid_center else (w//2, h//2)`. -/
def missLoc (c : Option (ℚ × ℚ)) (frameW frameH : ℚ) : ℤ × ℤ :=
  match c with
  | some p => (⌊p.1⌋, ⌊p.2⌋)
  | none => (⌊frameW / 2⌋, ⌊frameH / 2⌋)

/-- Embeds the motion emission block of `_handle_missing_detection`: given
the re-detected magnitude and the spike verdict, the relaxed context test
(recent falling, cached acceleration above 0.2, last stability below 0.6,
at least two frames missing, or magnitude above the full threshold) and
the 0.8-threshold bypass gate the emission behind the cooldown. -/
def motionGateMissing (cfg : Config) (st : DetState) (time mag : ℚ)
    (motionFall : Bool) (frameW frameH : ℚ) : DetState × Option FallEvent :=
  if motionFall = true ∧ time - st.lastFallTime ≥ cfg.cooldownSeconds then
    let contextValid := st.wasFallingBeforeMissing = true ∨
      st.lastValidAcceleration > 0.2 ∨
      (st.stabilityScores.length > 0 ∧
        st.stabilityScores.getD (st.stabilityScores.length - 1) 0 < 0.6) ∨
      st.missingFrames ≥ 2 ∨ mag > cfg.motionThreshold * 1.0
    if contextValid ∨ mag > cfg.motionThreshold * 0.8 then
      ({ st with fallConfirmed := true, lastFallTime := time },
       some { timestamp := time, confidence := 0.7 + mag * 0.2,
              location := missLoc st.lastValidCenter frameW frameH,
              previousState := st.currentState,
              duration := time - pyOr st.fallStartTime time })
    else (st, none)
  else (st, none)

/-- Embeds the pose-momentum secondary fallback of
`_handle_missing_detection`: while the subject was falling before the loss,
at most 15 frames are missing and the cached downward speed is meaningful,
an event is emitted behind the cooldown with a confidence scaled down
linearly in the missing-frame count. -/
def poseFallbackMissing (cfg : Config) (st : DetState) (time : ℚ) :
    DetState × Option FallEvent :=
  if st.wasFallingBeforeMissing = true ∧ st.missingFrames ≤ 15 ∧
     st.lastValidSpeed > cfg.verticalSpeedThreshold * 0.5 ∧ st.lastValidSpeed > 0 ∧
     time - st.lastFallTime ≥ cfg.cooldownSeconds then
    ({ st with fallConfirmed := true, lastFallTime := time },
     some { timestamp := time,
            confidence := 0.85 - ((st.missingFrames : ℚ) / 15) * 0.3,
            location := locOfCenter st.lastValidCenter,
            previousState := st.currentState,
            duration := time - pyOr st.fallStartTime time })
  else (st, none)

/-- Embeds the motion block at the top of `_handle_missing_detection`:
when the fallback is enabled, frame differencing runs again on the current
frame and the spike pattern is analyzed, appending the re-detected
magnitude to the difference history. -/
def missingMotionStage (cfg : Config) (st : DetState) (idx : Nat) (inp : FrameInput) :
    ℚ × DetState × Bool :=
  if cfg.useMotionFallback = true then
    let dm := detectMotion st idx inp.motionMag
    let am := analyzeMotionPattern cfg.motionThreshold dm.2.frameDiffHistory inp.time dm.1
    (dm.1, { dm.2 with frameDiffHistory := am.1 }, am.2)
  else ((0 : ℚ), st, false)

/-- Embeds `_handle_missing_detection`, called after the missing counter
has been incremented.  The motion block re-runs frame differencing on the
same frame (the stored previous frame is this very frame, so the magnitude
is 0) and analyzes the spike pattern, then the motion gate and the
pose-momentum fallback may emit, and finally the short-gap branch retains
the last state while the long-gap branch resets to `Unknown`. -/
def handleMissing (cfg : Config) (st : DetState) (idx : Nat) (inp : FrameInput) :
    DetState × FrameResult :=
  let d := missingMotionStage cfg st idx inp
  let e1 := motionGateMissing cfg d.2.1 inp.time d.1 d.2.2 inp.frameWidth inp.frameHeight
  let e2 :=
    if e1.2 = (none : Option FallEvent) then poseFallbackMissing cfg e1.1 inp.time
    else e1
  let st3 := e2.1
  let ev := e2.2
  if st3.missingFrames ≤ cfg.maxMissingFrames then
    (st3,
     { fallDetected := ev.isSome
       fallEvent := ev
       state := st3.currentState
       confidence := 0
       angle := st3.lastValidAngle
       speed := st3.lastValidSpeed
       lyingDetected := false
       lyingEvent := none
       missingFramesOut := some st3.missingFrames })
  else
    ({ st3 with currentState := PoseState.unknown, fallStartTime := none,
                fallConfirmed := false, wasFallingBeforeMissing := false },
     { fallDetected := false
       fallEvent := none
       state := PoseState.unknown
       confidence := 0
       angle := none
       speed := 0
       lyingDetected := false
       lyingEvent := none
       missingFramesOut := some st3.missingFrames })

/-- Embeds the motion-detection preamble of `process_frame`: when the
fallback is enabled, frame differencing runs and the magnitude is appended
to the capacity-10 difference history before the pose branch is chosen. -/
def stepMotionStage (cfg : Config) (st : DetState) (idx : Nat) (inp : FrameInput) :
    ℚ × DetState :=
  if cfg.useMotionFallback = true then
    let dm := detectMotion st idx inp.motionMag
    (dm.1, { dm.2 with frameDiffHistory := capAppend 10 dm.2.frameDiffHistory dm.1 })
  else ((0 : ℚ), st)

/-- Embeds one `process_frame` call: the motion detection preamble always
runs first, then the frame is dispatched to the missing-detection handler
(after incrementing the counter) or to the successful-detection body. -/
def stepFrame (cfg : Config) (ops : RealOps) (st : DetState) (idx : Nat)
    (inp : FrameInput) : DetState × FrameResult :=
  let pre := stepMotionStage cfg st idx inp
  match inp.pose with
  | none => handleMissing cfg { pre.2 with missingFrames := pre.2.missingFrames + 1 } idx inp
  | some p => processDetected cfg ops pre.2 inp p pre.1

/-- Drives a session over a list of frames, threading the state and
collecting the per-frame results; `idx` numbers the frames so that the
frame-differencing identity check is meaningful. -/
def runFrames (cfg : Config) (ops : RealOps) :
    DetState → Nat → List FrameInput → DetState × List FrameResult
  | st, _, [] => (st, [])
  | st, idx, inp :: rest =>
      let s := stepFrame cfg ops st idx inp
      let r := runFrames cfg ops s.1 (idx + 1) rest
      (r.1, s.2 :: r.2)

/-! Concrete instances used by witnesses and counterexamples. -/

/-- Executable stand-in interpretation of the irrational primitives used by
concrete witness runs: the square root is interpreted as the identity and
the arccosine as the constant 80 degrees.  Every theorem quantified over
`RealOps` holds for this interpretation in particular. -/
def opsW : RealOps := { sqrtQ := fun q => q, arccosDeg := fun _ => 80 }

/-- Keypoints of a synthetic near-horizontal person: visible shoulders at
height 200 and hips at height 208, everything else invisible. -/
def kpsLying : List (ℚ × ℚ) :=
  [(120, 60), (0, 0), (0, 0), (0, 0), (0, 0),
   (100, 200), (140, 200), (0, 0), (0, 0), (0, 0), (0, 0),
   (100, 208), (140, 208), (0, 0), (0, 0), (0, 0), (0, 0)]

/-- Confidences for `kpsLying`: only shoulders and hips are confident. -/
def confsLying : List ℚ :=
  [0, 0, 0, 0, 0, 0.6, 0.6, 0, 0, 0, 0, 0.6, 0.6, 0, 0, 0, 0]

/-- A pose that the classifier reads as lying low in the frame. -/
def poseLying : Pose := { kps := kpsLying, confs := confsLying }

/-- Frame with the lying pose at time 100 and no motion. -/
def frA : FrameInput :=
  { pose := some poseLying, motionMag := 0, time := 100, frameHeight := 260, frameWidth := 320 }

/-- Frame with the lying pose at time 101 and a large motion magnitude. -/
def frB : FrameInput :=
  { pose := some poseLying, motionMag := 0.5, time := 101, frameHeight := 260, frameWidth := 320 }

/-- Frame with the lying pose at time 200 and a large motion magnitude. -/
def frC : FrameInput :=
  { pose := some poseLying, motionMag := 0.5, time := 200, frameHeight := 260, frameWidth := 320 }

/-- Frame with no detection at time `t` and no motion. -/
def frMiss (t : ℚ) : FrameInput :=
  { pose := none, motionMag := 0, time := t, frameHeight := 260, frameWidth := 320 }

/-- Input sequence for the fall-confirmed counterexample: two detected
frames (the second emits a motion-based fall) followed by eleven
consecutive missing frames. -/
def c4Inputs : List FrameInput :=
  [frA, frB] ++ (List.range 11).map (fun k => frMiss (102 + (k : ℚ)))

/-- A pose whose 17 landmarks all carry zero confidence. -/
def poseZero : Pose :=
  { kps := List.replicate 17 ((0 : ℚ), (0 : ℚ)), confs := List.replicate 17 0 }

/-- Zero-confidence frame at time 100 with no motion. -/
def zA : FrameInput :=
  { pose := some poseZero, motionMag := 0, time := 100, frameHeight := 260, frameWidth := 320 }

/-- Zero-confidence frame at time 101 with no motion. -/
def zB : FrameInput :=
  { pose := some poseZero, motionMag := 0, time := 101, frameHeight := 260, frameWidth := 320 }

/-- Zero-confidence frame at time 101 with a large motion magnitude. -/
def zSpike : FrameInput :=
  { pose := some poseZero, motionMag := 0.5, time := 101, frameHeight := 260, frameWidth := 320 }

/-- A malformed pose with only 5 landmarks instead of the 17 of the COCO
layout, all of them confident. -/
def poseBad : Pose :=
  { kps := List.replicate 5 ((1 : ℚ), (2 : ℚ)), confs := List.replicate 5 (0.9 : ℚ) }

/-- Frame carrying the malformed 5-landmark pose. -/
def frBad : FrameInput :=
  { pose := some poseBad, motionMag := 0, time := 50, frameHeight := 260, frameWidth := 320 }

/-- The fall event emitted by the motion gate on `frB` in a session driven
with `frA, frB`. -/
def evB : FallEvent :=
  { timestamp := 101, confidence := 33/40, location := (120, 208),
    previousState := PoseState.lying, duration := 0 }

/-- The fall event emitted by the motion gate on `frC` in a session driven
with `frA, frB, frC`. -/
def evC : FallEvent :=
  { timestamp := 200, confidence := 33/40, location := (120, 208),
    previousState := PoseState.lying, duration := 0 }

/-- The event emitted by the pose `FALLING` branch at time 10 from the
initial state. -/
def evFall09 : FallEvent :=
  { timestamp := 10, confidence := 0.9, location := (0, 0),
    previousState := PoseState.unknown, duration := 0 }

/-- The event emitted by the falling-to-lying confirmation branch at time
10 from the initial state. -/
def evLying095 : FallEvent :=
  { timestamp := 10, confidence := 0.95, location := (0, 0),
    previousState := PoseState.falling, duration := 0 }

/-- A frame whose pose landmarks all carry zero confidence and whose
motion magnitude is zero, the hypothesis of the amended graceful-
degradation property. -/
def ZeroConfFrame (inp : FrameInput) : Prop :=
  inp.motionMag = 0 ∧ ∃ p, inp.pose = some p ∧ ∀ c ∈ p.confs, c = 0

/-- An interpretation of the irrational primitives that is exact at every
argument the flat-pose traces below sample them at: the square roots of
6400 and of 1 are 80 and 1, and the arccosine of 0 is 90 degrees.  The
remaining branches are never reached by those traces. -/
def opsE : RealOps :=
  { sqrtQ := fun q => if q = 6400 then 80 else if q = 1 then 1 else q
    arccosDeg := fun q => if q ≤ -1 then 180 else if q = 0 then 90 else if 1 ≤ q then 0 else 80 }

/-- Keypoints of a synthetic exactly horizontal person low in a frame of
height 1000: the shoulder center (180, 790) and the hip center (100, 790)
are at the same height, so the trunk vector is (80, 0), its magnitude is
the square root of 6400 and its cosine against the upward vertical is
exactly 0: the trunk angle is exactly 90 degrees for the true arccosine.
Everything besides shoulders and hips is invisible. -/
def kpsFlat : List (ℚ × ℚ) :=
  [(0, 0), (0, 0), (0, 0), (0, 0), (0, 0),
   (180, 788), (180, 792), (0, 0), (0, 0), (0, 0), (0, 0),
   (100, 788), (100, 792), (0, 0), (0, 0), (0, 0), (0, 0)]

/-- Confidences for `kpsFlat`: only shoulders and hips are confident. -/
def confsFlat : List ℚ :=
  [0, 0, 0, 0, 0, 0.6, 0.6, 0, 0, 0, 0, 0.6, 0.6, 0, 0, 0, 0]

/-- The exactly horizontal pose: body angle 90 degrees, body center
(100, 790), bounding box of height 4 (below the 10-pixel gate), no head,
leg or ankle landmarks.  The voter gives lying 3 votes for the angle and
2 for the normalized height 0.79, so the classification is lying. -/
def poseFlat : Pose := { kps := kpsFlat, confs := confsFlat }

/-- Frame with the flat pose at time 100 and no motion, in a 1000-pixel
frame. -/
def flA : FrameInput :=
  { pose := some poseFlat, motionMag := 0, time := 100, frameHeight := 1000, frameWidth := 320 }

/-- Frame with the flat pose at time 101 and a large motion magnitude. -/
def flB : FrameInput :=
  { pose := some poseFlat, motionMag := 0.5, time := 101, frameHeight := 1000, frameWidth := 320 }

/-- Frame with the flat pose at time 104 and no motion. -/
def flG : FrameInput :=
  { pose := some poseFlat, motionMag := 0, time := 104, frameHeight := 1000, frameWidth := 320 }

/-- Session state after processing `flA` from the initial state: the flat
pose classified lying, the lying tracker started at 100, the metric
histories hold the single frame. -/
def flatS1 : DetState :=
  { initState with
    centerHistory := [some (100, 790)]
    angleHistory := [some 90]
    timestampHistory := [100]
    velocityHistory := [0]
    accelerationHistory := [0]
    stabilityScores := [1/2]
    currentState := PoseState.lying
    lyingStartTime := some 100
    lastValidCenter := some (100, 790)
    lastValidAngle := some 90
    prevFrame := some 0
    frameDiffHistory := [0] }

/-- Result of processing `flA` from the initial state: lying, no events. -/
def flatR1 : FrameResult :=
  { fallDetected := false, fallEvent := none, state := PoseState.lying, confidence := 0,
    angle := some 90, speed := 0, lyingDetected := false, lyingEvent := none,
    missingFramesOut := none }

/-- The prolonged-lying alert a reset session emits on `flG`: the preserved
`lying_start_time` of 100 makes the measured duration 4 seconds. -/
def evFlatAlert : FallEvent :=
  { timestamp := 104, confidence := 0.85, location := (100, 790),
    previousState := PoseState.unknown, duration := 4 }

/-- The motion-gate fall event emitted on `flB` after `flA`: the bypass
fires on the 0.5 magnitude although the frame classifies lying. -/
def evFlatMotion : FallEvent :=
  { timestamp := 101, confidence := 33/40, location := (100, 790),
    previousState := PoseState.lying, duration := 0 }

/-! Helper lemmas. -/

/-- The posture voter never returns the falling state: falling is gated
separately by the confidence conjunction. -/
theorem decidePosture_ne_falling (l s t : Nat) :
    decidePosture l s t ≠ PoseState.falling := by
  unfold decidePosture
  dsimp only
  split_ifs <;> simp

/-- Length of a capacity-capped append. -/
theorem capAppend_length {α : Type} (cap : Nat) (l : List α) (x : α) :
    (capAppend cap l x).length = min (l.length + 1) cap := by
  simp [capAppend]
  omega

/-- Unfolds `getD` to the optional lookup. -/
theorem getD_get? (l : List ℚ) (n : Nat) : l.getD n 0 = (l.get? n).getD 0 := rfl

/-- The second-to-last entry of the last-five window of the capped append
is the last entry of the original history. -/
theorem capAppend_second_last (hist : List ℚ) (m : ℚ) (h : hist ≠ []) :
    ((capAppend 10 hist m).drop ((capAppend 10 hist m).length - 5)).getD
      (((capAppend 10 hist m).drop ((capAppend 10 hist m).length - 5)).length - 2) 0
      = hist.getD (hist.length - 1) 0 := by
  have hL : 1 ≤ hist.length := List.length_pos.mpr h
  rw [getD_get?, getD_get?, List.get?_drop]
  show (((hist ++ [m]).drop (hist.length + 1 - 10)).get? _).getD 0 = _
  rw [List.get?_drop]
  rw [show hist.length + 1 - 10 +
      ((capAppend 10 hist m).length - 5 +
        (((capAppend 10 hist m).drop ((capAppend 10 hist m).length - 5)).length - 2)) =
      hist.length - 1 by
    simp only [capAppend_length, List.length_drop]
    omega]
  rw [List.get?_append (by omega)]

attribute [local semireducible] Rat.add Rat.sub Rat.mul Rat.inv Rat.ofScientific

/-! Field-preservation and emission specifications of the event gates.
These dissect each gate of `process_frame` and `_handle_missing_detection`
once, so that the claim proofs compose them. -/

/-- The pose fall gate does not touch the missing counter, the posture
state, the lying tracking or the difference history. -/
theorem emitGatePose_frame (cfg : Config) (st : DetState) (t : ℚ)
    (ns ps : PoseState) (c : Option (ℚ × ℚ)) :
    (emitGatePose cfg st t ns ps c).1.missingFrames = st.missingFrames ∧
    (emitGatePose cfg st t ns ps c).1.currentState = st.currentState ∧
    (emitGatePose cfg st t ns ps c).1.lyingStartTime = st.lyingStartTime ∧
    (emitGatePose cfg st t ns ps c).1.lastLyingAlertTime = st.lastLyingAlertTime ∧
    (emitGatePose cfg st t ns ps c).1.frameDiffHistory = st.frameDiffHistory := by
  unfold emitGatePose
  dsimp only
  split_ifs <;> exact ⟨rfl, rfl, rfl, rfl, rfl⟩

/-- Emission specification of the pose fall gate: an emitted event is
stamped with the frame time, the cooldown from the previous emission has
elapsed, and the last-fall clock is advanced to the frame time; without an
emission the clock is untouched. -/
theorem emitGatePose_spec (cfg : Config) (st : DetState) (t : ℚ)
    (ns ps : PoseState) (c : Option (ℚ × ℚ)) :
    (∀ e, (emitGatePose cfg st t ns ps c).2 = some e →
      e.timestamp = t ∧ st.lastFallTime + cfg.cooldownSeconds ≤ t ∧
      (emitGatePose cfg st t ns ps c).1.lastFallTime = t) ∧
    ((emitGatePose cfg st t ns ps c).2 = none →
      (emitGatePose cfg st t ns ps c).1.lastFallTime = st.lastFallTime) := by
  unfold emitGatePose
  dsimp only
  split_ifs with h1 h2 h3 h4
  · refine ⟨fun e he => ?_, fun hn => by simp at hn⟩
    injection he with he'
    subst he'
    exact ⟨rfl, by linarith [h2.2], rfl⟩
  · exact ⟨fun e he => by simp at he, fun _ => rfl⟩
  · refine ⟨fun e he => ?_, fun hn => by simp at hn⟩
    injection he with he'
    subst he'
    exact ⟨rfl, by linarith [h4.2], rfl⟩
  · exact ⟨fun e he => by simp at he, fun _ => rfl⟩
  · exact ⟨fun e he => by simp at he, fun _ => rfl⟩
  · exact ⟨fun e he => by simp at he, fun _ => rfl⟩

/-- The pose fall gate clears the confirmation flag only on a standing or
sitting frame. -/
theorem emitGatePose_confirmed (cfg : Config) (st : DetState) (t : ℚ)
    (ns ps : PoseState) (c : Option (ℚ × ℚ)) :
    (emitGatePose cfg st t ns ps c).1.fallConfirmed = false →
    st.fallConfirmed = false ∨ ns = PoseState.standing ∨ ns = PoseState.sitting := by
  unfold emitGatePose
  dsimp only
  split_ifs <;> intro h <;> simp_all

/-- On a frame that neither classifies as falling nor confirms a fall as
lying after falling, the pose fall gate emits nothing. -/
theorem emitGatePose_quiet (cfg : Config) (st : DetState) (t : ℚ)
    (ns ps : PoseState) (c : Option (ℚ × ℚ)) (hns : ns ≠ PoseState.falling)
    (hnl : ¬ (ns = PoseState.lying ∧ ps = PoseState.falling)) :
    (emitGatePose cfg st t ns ps c).2 = none := by
  unfold emitGatePose
  rw [if_neg hns, if_neg hnl]

/-- The lying gate touches only the lying tracking fields. -/
theorem lyingGate_frame (cfg : Config) (st : DetState) (t : ℚ)
    (ns ps : PoseState) (c : Option (ℚ × ℚ)) :
    (lyingGate cfg st t ns ps c).1.missingFrames = st.missingFrames ∧
    (lyingGate cfg st t ns ps c).1.currentState = st.currentState ∧
    (lyingGate cfg st t ns ps c).1.lastFallTime = st.lastFallTime ∧
    (lyingGate cfg st t ns ps c).1.fallConfirmed = st.fallConfirmed ∧
    (lyingGate cfg st t ns ps c).1.fallStartTime = st.fallStartTime ∧
    (lyingGate cfg st t ns ps c).1.frameDiffHistory = st.frameDiffHistory := by
  unfold lyingGate
  dsimp only
  split_ifs <;> exact ⟨rfl, rfl, rfl, rfl, rfl, rfl⟩

/-- On a frame that does not classify as lying, the lying gate raises no
alert. -/
theorem lyingGate_quiet (cfg : Config) (st : DetState) (t : ℚ)
    (ns ps : PoseState) (c : Option (ℚ × ℚ)) (hns : ns ≠ PoseState.lying) :
    (lyingGate cfg st t ns ps c).2.1 = false ∧
    (lyingGate cfg st t ns ps c).2.2 = none := by
  unfold lyingGate
  rw [if_neg hns]
  exact ⟨rfl, rfl⟩

/-- The motion gate of the detected path does not touch the missing
counter or the posture state. -/
theorem motionGateDetected_frame (cfg : Config) (st : DetState) (t mm : ℚ)
    (ns : PoseState) (wasF : Bool) (accel stab vspeed : ℚ)
    (c : Option (ℚ × ℚ)) (w h : ℚ) (ps : PoseState) :
    (motionGateDetected cfg st t mm ns wasF accel stab vspeed c w h ps).1.missingFrames =
      st.missingFrames ∧
    (motionGateDetected cfg st t mm ns wasF accel stab vspeed c w h ps).1.currentState =
      st.currentState := by
  unfold motionGateDetected
  dsimp only
  split_ifs <;> exact ⟨rfl, rfl⟩

/-- Emission specification of the detected-path motion gate, with the same
shape as the pose gate specification. -/
theorem motionGateDetected_spec (cfg : Config) (st : DetState) (t mm : ℚ)
    (ns : PoseState) (wasF : Bool) (accel stab vspeed : ℚ)
    (c : Option (ℚ × ℚ)) (w h : ℚ) (ps : PoseState) :
    (∀ e, (motionGateDetected cfg st t mm ns wasF accel stab vspeed c w h ps).2 = some e →
      e.timestamp = t ∧ st.lastFallTime + cfg.cooldownSeconds ≤ t ∧
      (motionGateDetected cfg st t mm ns wasF accel stab vspeed c w h ps).1.lastFallTime = t) ∧
    ((motionGateDetected cfg st t mm ns wasF accel stab vspeed c w h ps).2 = none →
      (motionGateDetected cfg st t mm ns wasF accel stab vspeed c w h ps).1.lastFallTime =
        st.lastFallTime) := by
  unfold motionGateDetected
  dsimp only
  split_ifs with h1 h2
  · refine ⟨fun e he => ?_, fun hn => by simp at hn⟩
    injection he with he'
    subst he'
    exact ⟨rfl, by linarith [h1.2], rfl⟩
  · exact ⟨fun e he => by simp at he, fun _ => rfl⟩
  · exact ⟨fun e he => by simp at he, fun _ => rfl⟩

/-- The detected-path motion gate never clears the confirmation flag. -/
theorem motionGateDetected_confirmed (cfg : Config) (st : DetState) (t mm : ℚ)
    (ns : PoseState) (wasF : Bool) (accel stab vspeed : ℚ)
    (c : Option (ℚ × ℚ)) (w h : ℚ) (ps : PoseState) :
    (motionGateDetected cfg st t mm ns wasF accel stab vspeed c w h ps).1.fallConfirmed =
      false → st.fallConfirmed = false := by
  unfold motionGateDetected
  dsimp only
  split_ifs <;> intro h <;> simp_all

/-- Projection form of the pose-gate frame lemma. -/
theorem emitGatePose_missingFrames (cfg : Config) (st : DetState) (t : ℚ)
    (ns ps : PoseState) (c : Option (ℚ × ℚ)) :
    (emitGatePose cfg st t ns ps c).1.missingFrames = st.missingFrames :=
  (emitGatePose_frame cfg st t ns ps c).1

/-- Projection form of the pose-gate frame lemma. -/
theorem emitGatePose_currentState (cfg : Config) (st : DetState) (t : ℚ)
    (ns ps : PoseState) (c : Option (ℚ × ℚ)) :
    (emitGatePose cfg st t ns ps c).1.currentState = st.currentState :=
  (emitGatePose_frame cfg st t ns ps c).2.1

/-- Projection form of the lying-gate frame lemma. -/
theorem lyingGate_missingFrames (cfg : Config) (st : DetState) (t : ℚ)
    (ns ps : PoseState) (c : Option (ℚ × ℚ)) :
    (lyingGate cfg st t ns ps c).1.missingFrames = st.missingFrames :=
  (lyingGate_frame cfg st t ns ps c).1

/-- Projection form of the lying-gate frame lemma. -/
theorem lyingGate_lastFallTime (cfg : Config) (st : DetState) (t : ℚ)
    (ns ps : PoseState) (c : Option (ℚ × ℚ)) :
    (lyingGate cfg st t ns ps c).1.lastFallTime = st.lastFallTime :=
  (lyingGate_frame cfg st t ns ps c).2.2.1

/-- Projection form of the lying-gate frame lemma. -/
theorem lyingGate_fallConfirmed (cfg : Config) (st : DetState) (t : ℚ)
    (ns ps : PoseState) (c : Option (ℚ × ℚ)) :
    (lyingGate cfg st t ns ps c).1.fallConfirmed = st.fallConfirmed :=
  (lyingGate_frame cfg st t ns ps c).2.2.2.1

/-- Projection form of the detected-path motion gate frame lemma. -/
theorem motionGateDetected_missingFrames (cfg : Config) (st : DetState) (t mm : ℚ)
    (ns : PoseState) (wasF : Bool) (accel stab vspeed : ℚ)
    (c : Option (ℚ × ℚ)) (w h : ℚ) (ps : PoseState) :
    (motionGateDetected cfg st t mm ns wasF accel stab vspeed c w h ps).1.missingFrames =
      st.missingFrames :=
  (motionGateDetected_frame cfg st t mm ns wasF accel stab vspeed c w h ps).1

/-- The missing-path motion gate does not touch the missing counter, the
posture state, the retention caches or the difference history. -/
theorem motionGateMissing_frame (cfg : Config) (st : DetState) (t mag : ℚ)
    (mf : Bool) (w h : ℚ) :
    (motionGateMissing cfg st t mag mf w h).1.missingFrames = st.missingFrames ∧
    (motionGateMissing cfg st t mag mf w h).1.currentState = st.currentState ∧
    (motionGateMissing cfg st t mag mf w h).1.lastValidAngle = st.lastValidAngle ∧
    (motionGateMissing cfg st t mag mf w h).1.lastValidSpeed = st.lastValidSpeed ∧
    (motionGateMissing cfg st t mag mf w h).1.wasFallingBeforeMissing =
      st.wasFallingBeforeMissing ∧
    (motionGateMissing cfg st t mag mf w h).1.frameDiffHistory = st.frameDiffHistory := by
  unfold motionGateMissing
  dsimp only
  split_ifs <;> exact ⟨rfl, rfl, rfl, rfl, rfl, rfl⟩

/-- Emission specification of the missing-path motion gate. -/
theorem motionGateMissing_spec (cfg : Config) (st : DetState) (t mag : ℚ)
    (mf : Bool) (w h : ℚ) :
    (∀ e, (motionGateMissing cfg st t mag mf w h).2 = some e →
      e.timestamp = t ∧ st.lastFallTime + cfg.cooldownSeconds ≤ t ∧
      (motionGateMissing cfg st t mag mf w h).1.lastFallTime = t) ∧
    ((motionGateMissing cfg st t mag mf w h).2 = none →
      (motionGateMissing cfg st t mag mf w h).1.lastFallTime = st.lastFallTime) := by
  unfold motionGateMissing
  dsimp only
  split_ifs with h1 h2
  · refine ⟨fun e he => ?_, fun hn => by simp at hn⟩
    injection he with he'
    subst he'
    exact ⟨rfl, by linarith [h1.2], rfl⟩
  · exact ⟨fun e he => by simp at he, fun _ => rfl⟩
  · exact ⟨fun e he => by simp at he, fun _ => rfl⟩

/-- The missing-path motion gate never clears the confirmation flag. -/
theorem motionGateMissing_confirmed (cfg : Config) (st : DetState) (t mag : ℚ)
    (mf : Bool) (w h : ℚ) :
    (motionGateMissing cfg st t mag mf w h).1.fallConfirmed = false →
    st.fallConfirmed = false := by
  unfold motionGateMissing
  dsimp only
  split_ifs <;> intro hx <;> simp_all

/-- The pose-momentum fallback does not touch the missing counter, the
posture state, the retention caches or the difference history. -/
theorem poseFallbackMissing_frame (cfg : Config) (st : DetState) (t : ℚ) :
    (poseFallbackMissing cfg st t).1.missingFrames = st.missingFrames ∧
    (poseFallbackMissing cfg st t).1.currentState = st.currentState ∧
    (poseFallbackMissing cfg st t).1.lastValidAngle = st.lastValidAngle ∧
    (poseFallbackMissing cfg st t).1.lastValidSpeed = st.lastValidSpeed ∧
    (poseFallbackMissing cfg st t).1.frameDiffHistory = st.frameDiffHistory := by
  unfold poseFallbackMissing
  split_ifs <;> exact ⟨rfl, rfl, rfl, rfl, rfl⟩

/-- Emission specification of the pose-momentum fallback. -/
theorem poseFallbackMissing_spec (cfg : Config) (st : DetState) (t : ℚ) :
    (∀ e, (poseFallbackMissing cfg st t).2 = some e →
      e.timestamp = t ∧ st.lastFallTime + cfg.cooldownSeconds ≤ t ∧
      (poseFallbackMissing cfg st t).1.lastFallTime = t) ∧
    ((poseFallbackMissing cfg st t).2 = none →
      (poseFallbackMissing cfg st t).1.lastFallTime = st.lastFallTime) := by
  unfold poseFallbackMissing
  split_ifs with h1
  · refine ⟨fun e he => ?_, fun hn => by simp at hn⟩
    injection he with he'
    subst he'
    exact ⟨rfl, by linarith [h1.2.2.2.2], rfl⟩
  · exact ⟨fun e he => by simp at he, fun _ => rfl⟩

/-- The pose-momentum fallback never clears the confirmation flag. -/
theorem poseFallbackMissing_confirmed (cfg : Config) (st : DetState) (t : ℚ) :
    (poseFallbackMissing cfg st t).1.fallConfirmed = false →
    st.fallConfirmed = false := by
  unfold poseFallbackMissing
  split_ifs <;> intro hx <;> simp_all

/-! Pipeline-level composition lemmas for the detected path. -/

/-- The finished frame installs the classified posture as the session
state. -/
theorem fallPipeline_currentState (cfg : Config) (st : DetState) (t : ℚ)
    (ns ps : PoseState) (c : Option (ℚ × ℚ)) (mm accel stab vspeed : ℚ)
    (wasF : Bool) (w h : ℚ) :
    (fallPipeline cfg st t ns ps c mm accel stab vspeed wasF w h).1.currentState = ns := rfl

/-- The event pipeline does not touch the missing counter. -/
theorem fallPipeline_missingFrames (cfg : Config) (st : DetState) (t : ℚ)
    (ns ps : PoseState) (c : Option (ℚ × ℚ)) (mm accel stab vspeed : ℚ)
    (wasF : Bool) (w h : ℚ) :
    (fallPipeline cfg st t ns ps c mm accel stab vspeed wasF w h).1.missingFrames =
      st.missingFrames := by
  unfold fallPipeline
  dsimp only
  split_ifs <;>
    simp only [motionGateDetected_missingFrames, lyingGate_missingFrames,
      emitGatePose_missingFrames]

/-- Emission specification of the full detected-path event pipeline. -/
theorem fallPipeline_spec (cfg : Config) (st : DetState) (t : ℚ)
    (ns ps : PoseState) (c : Option (ℚ × ℚ)) (mm accel stab vspeed : ℚ)
    (wasF : Bool) (w h : ℚ) :
    (∀ e, (fallPipeline cfg st t ns ps c mm accel stab vspeed wasF w h).2.1 = some e →
      e.timestamp = t ∧ st.lastFallTime + cfg.cooldownSeconds ≤ t ∧
      (fallPipeline cfg st t ns ps c mm accel stab vspeed wasF w h).1.lastFallTime = t) ∧
    ((fallPipeline cfg st t ns ps c mm accel stab vspeed wasF w h).2.1 = none →
      (fallPipeline cfg st t ns ps c mm accel stab vspeed wasF w h).1.lastFallTime =
        st.lastFallTime) := by
  have hE := emitGatePose_spec cfg st t ns ps c
  unfold fallPipeline
  dsimp only
  rcases hg1 : (emitGatePose cfg st t ns ps c).2 with _ | e1
  · simp only [hg1]
    have hLF : (lyingGate cfg (emitGatePose cfg st t ns ps c).1 t ns ps c).1.lastFallTime =
        st.lastFallTime := by
      rw [lyingGate_lastFallTime, hE.2 hg1]
    split_ifs with hguard
    · have hM := motionGateDetected_spec cfg
        (lyingGate cfg (emitGatePose cfg st t ns ps c).1 t ns ps c).1 t mm ns wasF
        accel stab vspeed c w h ps
      refine ⟨fun e he => ?_, fun hn => ?_⟩
      · obtain ⟨h1, h2, h3⟩ := hM.1 e he
        exact ⟨h1, by rw [hLF] at h2; exact h2, h3⟩
      · rw [hM.2 hn, hLF]
    · exact ⟨fun e he => by simp at he, fun _ => hLF⟩
  · simp only [hg1]
    have hg1' : ¬ ((some e1 : Option FallEvent) = none ∧
        cfg.useMotionFallback = true ∧ mm > 0) := by simp
    rw [if_neg hg1']
    obtain ⟨h1, h2, h3⟩ := hE.1 e1 hg1
    refine ⟨fun e he => ?_, fun hn => by simp at hn⟩
    · injection he with he'
      subst he'
      exact ⟨h1, h2, by rw [lyingGate_lastFallTime]; exact h3⟩

/-- The event pipeline clears the confirmation flag only through a
standing or sitting classification. -/
theorem fallPipeline_confirmed (cfg : Config) (st : DetState) (t : ℚ)
    (ns ps : PoseState) (c : Option (ℚ × ℚ)) (mm accel stab vspeed : ℚ)
    (wasF : Bool) (w h : ℚ) :
    (fallPipeline cfg st t ns ps c mm accel stab vspeed wasF w h).1.fallConfirmed = false →
    st.fallConfirmed = false ∨ ns = PoseState.standing ∨ ns = PoseState.sitting := by
  unfold fallPipeline
  dsimp only
  split_ifs with hguard <;> intro hfc
  · have h1 := motionGateDetected_confirmed cfg
      (lyingGate cfg (emitGatePose cfg st t ns ps c).1 t ns ps c).1 t mm ns wasF
      accel stab vspeed c w h ps hfc
    rw [lyingGate_fallConfirmed] at h1
    exact emitGatePose_confirmed cfg st t ns ps c h1
  · rw [lyingGate_fallConfirmed] at hfc
    exact emitGatePose_confirmed cfg st t ns ps c hfc

/-- With a posture that is neither falling nor lying and no motion signal,
the event pipeline emits nothing at all. -/
theorem fallPipeline_quiet (cfg : Config) (st : DetState) (t : ℚ)
    (ns ps : PoseState) (c : Option (ℚ × ℚ)) (accel stab vspeed : ℚ)
    (wasF : Bool) (w h : ℚ) (hns : ns ≠ PoseState.falling) (hnl : ns ≠ PoseState.lying) :
    (fallPipeline cfg st t ns ps c 0 accel stab vspeed wasF w h).2.1 = none ∧
    (fallPipeline cfg st t ns ps c 0 accel stab vspeed wasF w h).2.2.1 = false ∧
    (fallPipeline cfg st t ns ps c 0 accel stab vspeed wasF w h).2.2.2 = none := by
  have hq := emitGatePose_quiet cfg st t ns ps c hns (fun hc => hnl hc.1)
  have hl := lyingGate_quiet cfg (emitGatePose cfg st t ns ps c).1 t ns ps c hnl
  unfold fallPipeline
  dsimp only
  rw [if_neg (fun hc => lt_irrefl (0 : ℚ) hc.2.2)]
  rw [hq]
  exact ⟨rfl, hl.1, hl.2⟩

/-! Reduction facts for the detected-path assembly. -/

/-- The metric stage resets the missing counter and leaves the gating
fields untouched. -/
theorem updateMetrics_st (ops : RealOps) (st : DetState) (inp : FrameInput) (p : Pose) :
    (updateMetrics ops st inp p).st.missingFrames = 0 ∧
    (updateMetrics ops st inp p).st.currentState = st.currentState ∧
    (updateMetrics ops st inp p).st.lastFallTime = st.lastFallTime ∧
    (updateMetrics ops st inp p).st.fallConfirmed = st.fallConfirmed ∧
    (updateMetrics ops st inp p).st.fallStartTime = st.fallStartTime :=
  ⟨rfl, rfl, rfl, rfl, rfl⟩

/-- The metric stage reports the trunk angle of the extractor. -/
theorem updateMetrics_angle (ops : RealOps) (st : DetState) (inp : FrameInput) (p : Pose) :
    (updateMetrics ops st inp p).angle = getBodyAngle ops p.kps p.confs := rfl

/-! Dissection of the missing-detection handler. -/

/-- Frame differencing only swaps the stored frame; every other field of
the session is untouched. -/
theorem detectMotion_frame (st : DetState) (idx : Nat) (mag : ℚ) :
    (detectMotion st idx mag).2.missingFrames = st.missingFrames ∧
    (detectMotion st idx mag).2.currentState = st.currentState ∧
    (detectMotion st idx mag).2.lastFallTime = st.lastFallTime ∧
    (detectMotion st idx mag).2.fallConfirmed = st.fallConfirmed ∧
    (detectMotion st idx mag).2.fallStartTime = st.fallStartTime ∧
    (detectMotion st idx mag).2.lastValidAngle = st.lastValidAngle ∧
    (detectMotion st idx mag).2.lastValidSpeed = st.lastValidSpeed ∧
    (detectMotion st idx mag).2.wasFallingBeforeMissing = st.wasFallingBeforeMissing ∧
    (detectMotion st idx mag).2.frameDiffHistory = st.frameDiffHistory := by
  unfold detectMotion
  cases st.prevFrame <;> exact ⟨rfl, rfl, rfl, rfl, rfl, rfl, rfl, rfl, rfl⟩

/-- Differencing with a zero magnitude input yields zero on both the
fresh-frame and the repeated-frame paths. -/
theorem detectMotion_zero (st : DetState) (idx : Nat) :
    (detectMotion st idx 0).1 = 0 := by
  unfold detectMotion
  cases st.prevFrame with
  | none => rfl
  | some j => by_cases hj : j = idx <;> simp [hj]

/-- The motion stage of the missing handler touches only the stored frame
and the difference history. -/
theorem missingMotionStage_frame (cfg : Config) (st : DetState) (idx : Nat)
    (inp : FrameInput) :
    (missingMotionStage cfg st idx inp).2.1.missingFrames = st.missingFrames ∧
    (missingMotionStage cfg st idx inp).2.1.currentState = st.currentState ∧
    (missingMotionStage cfg st idx inp).2.1.lastFallTime = st.lastFallTime ∧
    (missingMotionStage cfg st idx inp).2.1.fallConfirmed = st.fallConfirmed ∧
    (missingMotionStage cfg st idx inp).2.1.lastValidAngle = st.lastValidAngle ∧
    (missingMotionStage cfg st idx inp).2.1.lastValidSpeed = st.lastValidSpeed := by
  unfold missingMotionStage
  split_ifs
  · dsimp only
    have hd := detectMotion_frame st idx inp.motionMag
    exact ⟨hd.1, hd.2.1, hd.2.2.1, hd.2.2.2.1, hd.2.2.2.2.2.1, hd.2.2.2.2.2.2.1⟩
  · exact ⟨rfl, rfl, rfl, rfl, rfl, rfl⟩

/-- Retention and emission behaviour of the two missing-path fall gates
combined: the emitted event carries the frame time and respects the
cooldown, and the pre-branch state keeps the retention fields. -/
theorem missingGates_spec (cfg : Config) (st : DetState) (t mag : ℚ) (mf : Bool)
    (w h : ℚ) :
    (∀ e,
      (if (motionGateMissing cfg st t mag mf w h).2 = (none : Option FallEvent) then
          poseFallbackMissing cfg (motionGateMissing cfg st t mag mf w h).1 t
        else motionGateMissing cfg st t mag mf w h).2 = some e →
      e.timestamp = t ∧ st.lastFallTime + cfg.cooldownSeconds ≤ t ∧
      (if (motionGateMissing cfg st t mag mf w h).2 = (none : Option FallEvent) then
          poseFallbackMissing cfg (motionGateMissing cfg st t mag mf w h).1 t
        else motionGateMissing cfg st t mag mf w h).1.lastFallTime = t) ∧
    ((if (motionGateMissing cfg st t mag mf w h).2 = (none : Option FallEvent) then
          poseFallbackMissing cfg (motionGateMissing cfg st t mag mf w h).1 t
        else motionGateMissing cfg st t mag mf w h).2 = none →
      (if (motionGateMissing cfg st t mag mf w h).2 = (none : Option FallEvent) then
          poseFallbackMissing cfg (motionGateMissing cfg st t mag mf w h).1 t
        else motionGateMissing cfg st t mag mf w h).1.lastFallTime = st.lastFallTime) := by
  have hM := motionGateMissing_spec cfg st t mag mf w h
  by_cases hm : (motionGateMissing cfg st t mag mf w h).2 = (none : Option FallEvent)
  · rw [if_pos hm]
    have hMlf := hM.2 hm
    have hP := poseFallbackMissing_spec cfg (motionGateMissing cfg st t mag mf w h).1 t
    refine ⟨fun e he => ?_, fun hn => ?_⟩
    · obtain ⟨h1, h2, h3⟩ := hP.1 e he
      exact ⟨h1, by rw [hMlf] at h2; exact h2, h3⟩
    · rw [hP.2 hn, hMlf]
  · rw [if_neg hm]
    exact ⟨fun e he => hM.1 e he, fun hn => absurd hn hm⟩

/-- Field retention of the combined missing-path fall gates. -/
theorem missingGates_frame (cfg : Config) (st : DetState) (t mag : ℚ) (mf : Bool)
    (w h : ℚ) :
    (if (motionGateMissing cfg st t mag mf w h).2 = (none : Option FallEvent) then
        poseFallbackMissing cfg (motionGateMissing cfg st t mag mf w h).1 t
      else motionGateMissing cfg st t mag mf w h).1.missingFrames = st.missingFrames ∧
    (if (motionGateMissing cfg st t mag mf w h).2 = (none : Option FallEvent) then
        poseFallbackMissing cfg (motionGateMissing cfg st t mag mf w h).1 t
      else motionGateMissing cfg st t mag mf w h).1.currentState = st.currentState ∧
    (if (motionGateMissing cfg st t mag mf w h).2 = (none : Option FallEvent) then
        poseFallbackMissing cfg (motionGateMissing cfg st t mag mf w h).1 t
      else motionGateMissing cfg st t mag mf w h).1.lastValidAngle = st.lastValidAngle ∧
    (if (motionGateMissing cfg st t mag mf w h).2 = (none : Option FallEvent) then
        poseFallbackMissing cfg (motionGateMissing cfg st t mag mf w h).1 t
      else motionGateMissing cfg st t mag mf w h).1.lastValidSpeed = st.lastValidSpeed := by
  have hMf := motionGateMissing_frame cfg st t mag mf w h
  by_cases hm : (motionGateMissing cfg st t mag mf w h).2 = (none : Option FallEvent)
  · rw [if_pos hm]
    have hPf := poseFallbackMissing_frame cfg (motionGateMissing cfg st t mag mf w h).1 t
    exact ⟨hPf.1.trans hMf.1, hPf.2.1.trans hMf.2.1,
      hPf.2.2.1.trans hMf.2.2.1, hPf.2.2.2.1.trans hMf.2.2.2.1⟩
  · rw [if_neg hm]
    exact ⟨hMf.1, hMf.2.1, hMf.2.2.1, hMf.2.2.2.1⟩

/-- Confirmation-flag behaviour of the combined missing-path gates: they
only ever raise the flag. -/
theorem missingGates_confirmed (cfg : Config) (st : DetState) (t mag : ℚ) (mf : Bool)
    (w h : ℚ) :
    (if (motionGateMissing cfg st t mag mf w h).2 = (none : Option FallEvent) then
        poseFallbackMissing cfg (motionGateMissing cfg st t mag mf w h).1 t
      else motionGateMissing cfg st t mag mf w h).1.fallConfirmed = false →
    st.fallConfirmed = false := by
  by_cases hm : (motionGateMissing cfg st t mag mf w h).2 = (none : Option FallEvent)
  · rw [if_pos hm]
    intro hfc
    exact motionGateMissing_confirmed cfg st t mag mf w h
      (poseFallbackMissing_confirmed cfg _ t hfc)
  · rw [if_neg hm]
    exact motionGateMissing_confirmed cfg st t mag mf w h

/-- The detected-path motion preamble touches only the stored frame and
the difference history. -/
theorem stepMotionStage_frame (cfg : Config) (st : DetState) (idx : Nat)
    (inp : FrameInput) :
    (stepMotionStage cfg st idx inp).2.missingFrames = st.missingFrames ∧
    (stepMotionStage cfg st idx inp).2.currentState = st.currentState ∧
    (stepMotionStage cfg st idx inp).2.lastFallTime = st.lastFallTime ∧
    (stepMotionStage cfg st idx inp).2.fallConfirmed = st.fallConfirmed ∧
    (stepMotionStage cfg st idx inp).2.lastValidAngle = st.lastValidAngle ∧
    (stepMotionStage cfg st idx inp).2.lastValidSpeed = st.lastValidSpeed := by
  unfold stepMotionStage
  split_ifs
  · dsimp only
    have hd := detectMotion_frame st idx inp.motionMag
    exact ⟨hd.1, hd.2.1, hd.2.2.1, hd.2.2.2.1, hd.2.2.2.2.2.1, hd.2.2.2.2.2.2.1⟩
  · exact ⟨rfl, rfl, rfl, rfl, rfl, rfl⟩

/-- A zero motion input yields a zero preamble magnitude. -/
theorem stepMotionStage_zero (cfg : Config) (st : DetState) (idx : Nat)
    (inp : FrameInput) (hmag : inp.motionMag = 0) :
    (stepMotionStage cfg st idx inp).1 = 0 := by
  unfold stepMotionStage
  split_ifs
  · dsimp only
    rw [hmag]
    exact detectMotion_zero st idx
  · rfl

/-! Dissection of the classification stage and the detected-path
assembly. -/

/-- The classification stage returns the posture computed from the metric
outcome. -/
theorem classifyAndGate_state (cfg : Config) (ops : RealOps) (m : MetricsOut)
    (inp : FrameInput) (p : Pose) (mm : ℚ) :
    (classifyAndGate cfg ops m inp p mm).2.2.2.2 =
      determinePoseState cfg ops m.angle m.vspeed m.accel m.stab (some p)
        (m.center.map Prod.snd) (some inp.frameHeight) := rfl

/-- The classification stage installs the classified posture. -/
theorem classifyAndGate_currentState (cfg : Config) (ops : RealOps) (m : MetricsOut)
    (inp : FrameInput) (p : Pose) (mm : ℚ) :
    (classifyAndGate cfg ops m inp p mm).1.currentState =
      (classifyAndGate cfg ops m inp p mm).2.2.2.2 := by
  unfold classifyAndGate
  dsimp only
  exact fallPipeline_currentState cfg _ inp.time _ _ _ mm m.accel m.stab m.vspeed _
    inp.frameWidth inp.frameHeight

/-- The classification stage does not touch the missing counter. -/
theorem classifyAndGate_missingFrames (cfg : Config) (ops : RealOps) (m : MetricsOut)
    (inp : FrameInput) (p : Pose) (mm : ℚ) :
    (classifyAndGate cfg ops m inp p mm).1.missingFrames = m.st.missingFrames := by
  unfold classifyAndGate
  dsimp only
  rw [fallPipeline_missingFrames]

/-- Emission specification of the classification stage. -/
theorem classifyAndGate_spec (cfg : Config) (ops : RealOps) (m : MetricsOut)
    (inp : FrameInput) (p : Pose) (mm : ℚ) :
    (∀ e, (classifyAndGate cfg ops m inp p mm).2.1 = some e →
      e.timestamp = inp.time ∧ m.st.lastFallTime + cfg.cooldownSeconds ≤ inp.time ∧
      (classifyAndGate cfg ops m inp p mm).1.lastFallTime = inp.time) ∧
    ((classifyAndGate cfg ops m inp p mm).2.1 = none →
      (classifyAndGate cfg ops m inp p mm).1.lastFallTime = m.st.lastFallTime) := by
  unfold classifyAndGate
  dsimp only
  exact fallPipeline_spec cfg _ inp.time _ _ _ mm m.accel m.stab m.vspeed _
    inp.frameWidth inp.frameHeight

/-- The classification stage clears the confirmation flag only through a
standing or sitting classification. -/
theorem classifyAndGate_confirmed (cfg : Config) (ops : RealOps) (m : MetricsOut)
    (inp : FrameInput) (p : Pose) (mm : ℚ) :
    (classifyAndGate cfg ops m inp p mm).1.fallConfirmed = false →
    m.st.fallConfirmed = false ∨
    (classifyAndGate cfg ops m inp p mm).2.2.2.2 = PoseState.standing ∨
    (classifyAndGate cfg ops m inp p mm).2.2.2.2 = PoseState.sitting := by
  unfold classifyAndGate
  dsimp only
  exact fallPipeline_confirmed cfg _ inp.time _ _ _ mm m.accel m.stab m.vspeed _
    inp.frameWidth inp.frameHeight

/-- Definitional assembly of the successful-detection result. -/
theorem processDetected_parts (cfg : Config) (ops : RealOps) (st : DetState)
    (inp : FrameInput) (p : Pose) (mm : ℚ) :
    (processDetected cfg ops st inp p mm).1 =
      (classifyAndGate cfg ops (updateMetrics ops st inp p) inp p mm).1 ∧
    (processDetected cfg ops st inp p mm).2.fallEvent =
      (classifyAndGate cfg ops (updateMetrics ops st inp p) inp p mm).2.1 ∧
    (processDetected cfg ops st inp p mm).2.state =
      (classifyAndGate cfg ops (updateMetrics ops st inp p) inp p mm).2.2.2.2 ∧
    (processDetected cfg ops st inp p mm).2.angle = (updateMetrics ops st inp p).angle ∧
    (processDetected cfg ops st inp p mm).2.missingFramesOut = none ∧
    (processDetected cfg ops st inp p mm).2.fallDetected =
      (classifyAndGate cfg ops (updateMetrics ops st inp p) inp p mm).2.1.isSome ∧
    (processDetected cfg ops st inp p mm).2.lyingDetected =
      (classifyAndGate cfg ops (updateMetrics ops st inp p) inp p mm).2.2.1 ∧
    (processDetected cfg ops st inp p mm).2.lyingEvent =
      (classifyAndGate cfg ops (updateMetrics ops st inp p) inp p mm).2.2.2.1 :=
  ⟨rfl, rfl, rfl, rfl, rfl, rfl, rfl, rfl⟩

/-! Behaviour of the full missing-detection handler. -/

/-- Short-gap behaviour: within the allowance the handler retains the last
posture state and reports the cached angle and speed together with the
missing count. -/
theorem handleMissing_short (cfg : Config) (st : DetState) (idx : Nat)
    (inp : FrameInput) (hshort : st.missingFrames ≤ cfg.maxMissingFrames) :
    (handleMissing cfg st idx inp).2.state = st.currentState ∧
    (handleMissing cfg st idx inp).2.angle = st.lastValidAngle ∧
    (handleMissing cfg st idx inp).2.speed = st.lastValidSpeed ∧
    (handleMissing cfg st idx inp).2.missingFramesOut = some st.missingFrames ∧
    (handleMissing cfg st idx inp).1.currentState = st.currentState := by
  unfold handleMissing
  dsimp only
  have hS := missingMotionStage_frame cfg st idx inp
  have hG := missingGates_frame cfg (missingMotionStage cfg st idx inp).2.1 inp.time
    (missingMotionStage cfg st idx inp).1 (missingMotionStage cfg st idx inp).2.2
    inp.frameWidth inp.frameHeight
  rw [hG.1, hS.1, if_pos hshort]
  dsimp only
  exact ⟨hG.2.1.trans hS.2.1, hG.2.2.1.trans hS.2.2.2.2.1,
    hG.2.2.2.trans hS.2.2.2.2.2, rfl, hG.2.1.trans hS.2.1⟩

/-- Long-gap behaviour: beyond the allowance the handler discards any
event, reports `Unknown`, and clears the fall bookkeeping. -/
theorem handleMissing_long (cfg : Config) (st : DetState) (idx : Nat)
    (inp : FrameInput) (hlong : ¬ st.missingFrames ≤ cfg.maxMissingFrames) :
    (handleMissing cfg st idx inp).2.state = PoseState.unknown ∧
    (handleMissing cfg st idx inp).2.fallDetected = false ∧
    (handleMissing cfg st idx inp).2.fallEvent = none ∧
    (handleMissing cfg st idx inp).2.missingFramesOut = some st.missingFrames ∧
    (handleMissing cfg st idx inp).1.currentState = PoseState.unknown ∧
    (handleMissing cfg st idx inp).1.fallStartTime = none ∧
    (handleMissing cfg st idx inp).1.fallConfirmed = false ∧
    (handleMissing cfg st idx inp).1.wasFallingBeforeMissing = false := by
  unfold handleMissing
  dsimp only
  have hS := missingMotionStage_frame cfg st idx inp
  have hG := missingGates_frame cfg (missingMotionStage cfg st idx inp).2.1 inp.time
    (missingMotionStage cfg st idx inp).1 (missingMotionStage cfg st idx inp).2.2
    inp.frameWidth inp.frameHeight
  rw [hG.1, hS.1, if_neg hlong]
  exact ⟨rfl, rfl, rfl, rfl, rfl, rfl, rfl, rfl⟩

/-- Emission specification of the missing-detection handler.  An event can
be built and then discarded by the long-gap reset; in that case the
last-fall clock still only advances behind the cooldown. -/
theorem handleMissing_spec (cfg : Config) (st : DetState) (idx : Nat)
    (inp : FrameInput) :
    (∀ e, (handleMissing cfg st idx inp).2.fallEvent = some e →
      e.timestamp = inp.time ∧ st.lastFallTime + cfg.cooldownSeconds ≤ inp.time ∧
      (handleMissing cfg st idx inp).1.lastFallTime = inp.time) ∧
    ((handleMissing cfg st idx inp).2.fallEvent = none →
      (handleMissing cfg st idx inp).1.lastFallTime = st.lastFallTime ∨
      ((handleMissing cfg st idx inp).1.lastFallTime = inp.time ∧
        st.lastFallTime + cfg.cooldownSeconds ≤ inp.time)) := by
  unfold handleMissing
  dsimp only
  have hS := missingMotionStage_frame cfg st idx inp
  have hG := missingGates_spec cfg (missingMotionStage cfg st idx inp).2.1 inp.time
    (missingMotionStage cfg st idx inp).1 (missingMotionStage cfg st idx inp).2.2
    inp.frameWidth inp.frameHeight
  set E :=
    (if (motionGateMissing cfg (missingMotionStage cfg st idx inp).2.1 inp.time
          (missingMotionStage cfg st idx inp).1 (missingMotionStage cfg st idx inp).2.2
          inp.frameWidth inp.frameHeight).2 = (none : Option FallEvent) then
        poseFallbackMissing cfg
          (motionGateMissing cfg (missingMotionStage cfg st idx inp).2.1 inp.time
            (missingMotionStage cfg st idx inp).1 (missingMotionStage cfg st idx inp).2.2
            inp.frameWidth inp.frameHeight).1 inp.time
      else motionGateMissing cfg (missingMotionStage cfg st idx inp).2.1 inp.time
        (missingMotionStage cfg st idx inp).1 (missingMotionStage cfg st idx inp).2.2
        inp.frameWidth inp.frameHeight) with hE
  split_ifs with hfin
  · dsimp only
    refine ⟨fun e he => ?_, fun hn => ?_⟩
    · obtain ⟨h1, h2, h3⟩ := hG.1 e he
      exact ⟨h1, by rw [hS.2.2.1] at h2; exact h2, h3⟩
    · left
      exact (hG.2 hn).trans hS.2.2.1
  · dsimp only
    refine ⟨fun e he => by simp at he, fun _ => ?_⟩
    by_cases hev : E.2 = (none : Option FallEvent)
    · left
      exact (hG.2 hev).trans hS.2.2.1
    · rcases Option.ne_none_iff_exists'.mp hev with ⟨e, he⟩
      obtain ⟨h1, h2, h3⟩ := hG.1 e he
      right
      exact ⟨h3, by rw [hS.2.2.1] at h2; exact h2⟩

/-- The missing-detection handler clears the confirmation flag only on the
long-gap reset. -/
theorem handleMissing_confirmed (cfg : Config) (st : DetState) (idx : Nat)
    (inp : FrameInput) :
    (handleMissing cfg st idx inp).1.fallConfirmed = false →
    st.fallConfirmed = false ∨ ¬ st.missingFrames ≤ cfg.maxMissingFrames := by
  unfold handleMissing
  dsimp only
  have hS := missingMotionStage_frame cfg st idx inp
  have hGf := missingGates_frame cfg (missingMotionStage cfg st idx inp).2.1 inp.time
    (missingMotionStage cfg st idx inp).1 (missingMotionStage cfg st idx inp).2.2
    inp.frameWidth inp.frameHeight
  have hGc := missingGates_confirmed cfg (missingMotionStage cfg st idx inp).2.1 inp.time
    (missingMotionStage cfg st idx inp).1 (missingMotionStage cfg st idx inp).2.2
    inp.frameWidth inp.frameHeight
  set E :=
    (if (motionGateMissing cfg (missingMotionStage cfg st idx inp).2.1 inp.time
          (missingMotionStage cfg st idx inp).1 (missingMotionStage cfg st idx inp).2.2
          inp.frameWidth inp.frameHeight).2 = (none : Option FallEvent) then
        poseFallbackMissing cfg
          (motionGateMissing cfg (missingMotionStage cfg st idx inp).2.1 inp.time
            (missingMotionStage cfg st idx inp).1 (missingMotionStage cfg st idx inp).2.2
            inp.frameWidth inp.frameHeight).1 inp.time
      else motionGateMissing cfg (missingMotionStage cfg st idx inp).2.1 inp.time
        (missingMotionStage cfg st idx inp).1 (missingMotionStage cfg st idx inp).2.2
        inp.frameWidth inp.frameHeight) with hE
  rw [hGf.1, hS.1]
  split_ifs with hfin
  · intro hfc
    left
    exact hS.2.2.2.1 ▸ hGc hfc
  · intro _
    right
    exact hfin

/-! Facts about the differencing state and the spike-history update. -/

/-- The spike analysis always appends the magnitude to the capped
history, whatever its verdict. -/
theorem analyzeMotionPattern_fst (thr : ℚ) (hist : List ℚ) (t m : ℚ) :
    (analyzeMotionPattern thr hist t m).1 = capAppend 10 hist m := by
  unfold analyzeMotionPattern
  dsimp only
  split_ifs <;> rfl

/-- Frame differencing always stores the current frame. -/
theorem detectMotion_prevFrame (st : DetState) (idx : Nat) (mag : ℚ) :
    (detectMotion st idx mag).2.prevFrame = some idx := by
  unfold detectMotion
  cases st.prevFrame <;> rfl

/-- Differencing a frame against itself yields zero magnitude. -/
theorem detectMotion_same (st : DetState) (idx : Nat) (mag : ℚ)
    (h : st.prevFrame = some idx) :
    (detectMotion st idx mag).1 = 0 := by
  unfold detectMotion
  rw [h]
  simp

/-- The missing-detection handler carries the difference history of its
motion stage through unchanged. -/
theorem handleMissing_frameDiff (cfg : Config) (st : DetState) (idx : Nat)
    (inp : FrameInput) :
    (handleMissing cfg st idx inp).1.frameDiffHistory =
      (missingMotionStage cfg st idx inp).2.1.frameDiffHistory := by
  unfold handleMissing
  dsimp only
  have hMf := motionGateMissing_frame cfg (missingMotionStage cfg st idx inp).2.1 inp.time
    (missingMotionStage cfg st idx inp).1 (missingMotionStage cfg st idx inp).2.2
    inp.frameWidth inp.frameHeight
  have hGd :
      (if (motionGateMissing cfg (missingMotionStage cfg st idx inp).2.1 inp.time
            (missingMotionStage cfg st idx inp).1 (missingMotionStage cfg st idx inp).2.2
            inp.frameWidth inp.frameHeight).2 = (none : Option FallEvent) then
          poseFallbackMissing cfg
            (motionGateMissing cfg (missingMotionStage cfg st idx inp).2.1 inp.time
              (missingMotionStage cfg st idx inp).1 (missingMotionStage cfg st idx inp).2.2
              inp.frameWidth inp.frameHeight).1 inp.time
        else motionGateMissing cfg (missingMotionStage cfg st idx inp).2.1 inp.time
          (missingMotionStage cfg st idx inp).1 (missingMotionStage cfg st idx inp).2.2
          inp.frameWidth inp.frameHeight).1.frameDiffHistory =
        (missingMotionStage cfg st idx inp).2.1.frameDiffHistory := by
    split_ifs with hm
    · exact (poseFallbackMissing_frame cfg _ inp.time).2.2.2.2.trans hMf.2.2.2.2.2
    · exact hMf.2.2.2.2.2
  set E :=
    (if (motionGateMissing cfg (missingMotionStage cfg st idx inp).2.1 inp.time
          (missingMotionStage cfg st idx inp).1 (missingMotionStage cfg st idx inp).2.2
          inp.frameWidth inp.frameHeight).2 = (none : Option FallEvent) then
        poseFallbackMissing cfg
          (motionGateMissing cfg (missingMotionStage cfg st idx inp).2.1 inp.time
            (missingMotionStage cfg st idx inp).1 (missingMotionStage cfg st idx inp).2.2
            inp.frameWidth inp.frameHeight).1 inp.time
      else motionGateMissing cfg (missingMotionStage cfg st idx inp).2.1 inp.time
        (missingMotionStage cfg st idx inp).1 (missingMotionStage cfg st idx inp).2.2
        inp.frameWidth inp.frameHeight) with hE
  split_ifs with hfin
  · exact hGd
  · exact hGd

/-- Emission specification of one full frame step: any emitted event is
stamped with the frame time and respects the cooldown from the session
clock, which only ever advances to an emission-eligible time. -/
theorem stepFrame_spec (cfg : Config) (ops : RealOps) (st : DetState) (idx : Nat)
    (inp : FrameInput) :
    (∀ e, (stepFrame cfg ops st idx inp).2.fallEvent = some e →
      e.timestamp = inp.time ∧ st.lastFallTime + cfg.cooldownSeconds ≤ inp.time ∧
      (stepFrame cfg ops st idx inp).1.lastFallTime = inp.time) ∧
    ((stepFrame cfg ops st idx inp).2.fallEvent = none →
      (stepFrame cfg ops st idx inp).1.lastFallTime = st.lastFallTime ∨
      ((stepFrame cfg ops st idx inp).1.lastFallTime = inp.time ∧
        st.lastFallTime + cfg.cooldownSeconds ≤ inp.time)) := by
  have hP := stepMotionStage_frame cfg st idx inp
  unfold stepFrame
  dsimp only
  rcases hp : inp.pose with _ | p <;> dsimp only
  · have hH := handleMissing_spec cfg
      { (stepMotionStage cfg st idx inp).2 with
        missingFrames := (stepMotionStage cfg st idx inp).2.missingFrames + 1 } idx inp
    refine ⟨fun e he => ?_, fun hn => ?_⟩
    · obtain ⟨h1, h2, h3⟩ := hH.1 e he
      refine ⟨h1, ?_, h3⟩
      rw [← hP.2.2.1]
      exact h2
    · rcases hH.2 hn with h | ⟨ha, hb⟩
      · left
        rw [← hP.2.2.1]
        exact h
      · right
        refine ⟨ha, ?_⟩
        rw [← hP.2.2.1]
        exact hb
  · have hPD := processDetected_parts cfg ops (stepMotionStage cfg st idx inp).2 inp p
      (stepMotionStage cfg st idx inp).1
    have hC := classifyAndGate_spec cfg ops
      (updateMetrics ops (stepMotionStage cfg st idx inp).2 inp p) inp p
      (stepMotionStage cfg st idx inp).1
    refine ⟨fun e he => ?_, fun hn => ?_⟩
    · rw [hPD.2.1] at he
      obtain ⟨h1, h2, h3⟩ := hC.1 e he
      refine ⟨h1, ?_, ?_⟩
      · rw [← hP.2.2.1]
        exact h2
      · rw [hPD.1]
        exact h3
    · rw [hPD.2.1] at hn
      left
      rw [hPD.1, ← hP.2.2.1]
      exact hC.2 hn

/-- One frame step clears the confirmation flag only on a frame reported
standing or sitting, or on the long-gap reset of a missing frame. -/
theorem stepFrame_confirmed (cfg : Config) (ops : RealOps) (st : DetState) (idx : Nat)
    (inp : FrameInput) :
    (stepFrame cfg ops st idx inp).1.fallConfirmed = false →
    st.fallConfirmed = false ∨
    (stepFrame cfg ops st idx inp).2.state = PoseState.standing ∨
    (stepFrame cfg ops st idx inp).2.state = PoseState.sitting ∨
    (inp.pose = none ∧ ¬ st.missingFrames + 1 ≤ cfg.maxMissingFrames) := by
  have hP := stepMotionStage_frame cfg st idx inp
  unfold stepFrame
  dsimp only
  rcases hp : inp.pose with _ | p <;> dsimp only
  · intro hfc
    rcases handleMissing_confirmed cfg
        { (stepMotionStage cfg st idx inp).2 with
          missingFrames := (stepMotionStage cfg st idx inp).2.missingFrames + 1 } idx inp
        hfc with h | h
    · left
      have h' : (stepMotionStage cfg st idx inp).2.fallConfirmed = false := h
      rw [hP.2.2.2.1] at h'
      exact h'
    · right; right; right
      refine ⟨rfl, ?_⟩
      have h' : ¬ (stepMotionStage cfg st idx inp).2.missingFrames + 1 ≤
          cfg.maxMissingFrames := h
      rw [hP.1] at h'
      exact h'
  · intro hfc
    have hPD := processDetected_parts cfg ops (stepMotionStage cfg st idx inp).2 inp p
      (stepMotionStage cfg st idx inp).1
    rw [hPD.1] at hfc
    rcases classifyAndGate_confirmed cfg ops
        (updateMetrics ops (stepMotionStage cfg st idx inp).2 inp p) inp p
        (stepMotionStage cfg st idx inp).1 hfc with h | h | h
    · left
      have h' : (stepMotionStage cfg st idx inp).2.fallConfirmed = false := h
      rw [hP.2.2.2.1] at h'
      exact h'
    · right; left
      rw [hPD.2.2.1]
      exact h
    · right; right; left
      rw [hPD.2.2.1]
      exact h

/-! Absorption of degenerate poses by the metric extractors. -/

/-- Too few landmarks: the trunk-angle extractor aborts at the hip access
exactly as the caught `IndexError` does. -/
theorem getBodyAngle_none_of_short (ops : RealOps) (kp : List (ℚ × ℚ)) (conf : List ℚ)
    (hk : kp.length ≤ 11) : getBodyAngle ops kp conf = none := by
  have h11 : kp[11]? = none := List.getElem?_eq_none_iff.mpr hk
  unfold getBodyAngle
  cases h5 : kp.get? 5 <;> cases h6 : kp.get? 6 <;> simp [h5, h6, h11]

/-- Without a trunk angle the classifier reports the unknown posture. -/
theorem determinePoseState_none (cfg : Config) (ops : RealOps) (vspeed accel stab : ℚ)
    (kpc : Option Pose) (centerY frameHeight : Option ℚ) :
    determinePoseState cfg ops none vspeed accel stab kpc centerY frameHeight =
      PoseState.unknown := rfl

/-! Evaluation of the flat-pose traces for any interpretation of the
irrational primitives that returns the true values at the three arguments
the traces sample: the square roots of 6400 and 1 and the arccosine of 0. -/

/-- Body center of the flat pose. -/
theorem flat_center : getBodyCenter poseFlat.kps poseFlat.confs = some ((100:ℚ), (790:ℚ)) := by
  decide

/-- Trunk angle of the flat pose: the trunk vector is (80, 0), so the
cosine against the vertical is exactly 0 and the angle exactly 90 degrees,
for every interpretation that is exact at the sampled arguments. -/
theorem flat_angle (ops : RealOps) (h1 : ops.sqrtQ 6400 = 80) (h2 : ops.sqrtQ 1 = 1)
    (h3 : ops.arccosDeg 0 = 90) :
    getBodyAngle ops poseFlat.kps poseFlat.confs = some 90 := by
  unfold getBodyAngle
  norm_num [poseFlat, kpsFlat, confsFlat]
  rw [h1, h2, show clip 0 (-1) 1 = (0:ℚ) from by norm_num [clip], h3]
  norm_num

/-- The flat pose has no leg angle: both ankle confidences are zero, so
the square root and arccosine are never consulted. -/
theorem flat_leg (ops : RealOps) :
    getLegAngle ops poseFlat.kps poseFlat.confs = none := by
  unfold getLegAngle legAngleOf
  norm_num [poseFlat, kpsFlat, confsFlat]

/-- Stability of the flat pose under any interpretation: the ankle
confidences are zero, so only the 0.5 penalty applies, and with fewer than
five centers the sway factor is skipped. -/
theorem flat_stab (ops : RealOps) :
    ∀ ch : List (Option (ℚ × ℚ)), ch.length < 5 →
      calcStability ops poseFlat.kps poseFlat.confs ch = 1/2 := by
  intro ch hch
  unfold calcStability
  norm_num [poseFlat, kpsFlat, confsFlat]
  rw [if_neg (by omega)]
  norm_num [min_def, max_def]

/-- Classification of the flat pose signals: fused confidence 0.475 fails
the falling gate, and the votes are lying 5 (angle 3, height 2), sitting 0,
standing 0. -/
theorem flat_dps (ops : RealOps) :
    determinePoseState cfgDefault ops (some 90) 0 0 (1/2) (some poseFlat) (some 790)
      (some 1000) = PoseState.lying := by
  unfold determinePoseState
  dsimp only
  rw [flat_leg ops]
  decide

/-- Full evaluation of `process_frame` on `flA` from the initial state,
for every interpretation with the true values at the sampled arguments. -/
theorem stepFlatA (ops : RealOps) (h1 : ops.sqrtQ 6400 = 80) (h2 : ops.sqrtQ 1 = 1)
    (h3 : ops.arccosDeg 0 = 90) :
    stepFrame cfgDefault ops initState 0 flA = (flatS1, flatR1) := by
  have hm : updateMetrics ops { initState with prevFrame := some 0, frameDiffHistory := [0] }
      flA poseFlat =
      { st := { initState with
                  centerHistory := [some (100, 790)]
                  angleHistory := [some 90]
                  timestampHistory := [100]
                  velocityHistory := [0]
                  accelerationHistory := [0]
                  stabilityScores := [1/2]
                  lastValidCenter := some (100, 790)
                  lastValidAngle := some 90
                  prevFrame := some 0
                  frameDiffHistory := [0] }
        center := some (100, 790), angle := some 90, vspeed := 0, accel := 0, stab := 1/2 } := by
    unfold updateMetrics
    dsimp only
    rw [flat_center]
    rw [flat_angle ops h1 h2 h3]
    rw [flat_stab ops]
    · decide
    · decide
  unfold stepFrame
  dsimp only
  rw [show stepMotionStage cfgDefault initState 0 flA =
        ((0:ℚ), { initState with prevFrame := some 0, frameDiffHistory := [0] }) from by decide]
  rw [show flA.pose = some poseFlat from rfl]
  dsimp only
  unfold processDetected
  dsimp only
  rw [hm]
  dsimp only [flA]
  unfold classifyAndGate
  dsimp only [Option.map]
  rw [flat_dps ops]
  decide

/-- Full evaluation of `process_frame` on `flG` from the reset state of the
`flA` session: the preserved lying tracker dates from time 100, so the
4-second duration fires the prolonged-lying alert immediately. -/
theorem stepFlatG_afterReset (ops : RealOps) (h1 : ops.sqrtQ 6400 = 80)
    (h2 : ops.sqrtQ 1 = 1) (h3 : ops.arccosDeg 0 = 90) :
    stepFrame cfgDefault ops (resetState flatS1) 1 flG =
      ({ initState with
           centerHistory := [some (100, 790)]
           angleHistory := [some 90]
           timestampHistory := [104]
           velocityHistory := [0]
           accelerationHistory := [0]
           stabilityScores := [1/2]
           currentState := PoseState.lying
           lyingStartTime := some 100
           lastLyingAlertTime := 104
           lastValidCenter := some (100, 790)
           lastValidAngle := some 90
           prevFrame := some 1
           frameDiffHistory := [0, 0] },
       { fallDetected := false, fallEvent := none, state := PoseState.lying,
         confidence := 17/20, angle := some 90, speed := 0, lyingDetected := true,
         lyingEvent := some evFlatAlert, missingFramesOut := none }) := by
  have hm : updateMetrics ops
      { initState with
          lyingStartTime := some 100
          prevFrame := some 1
          frameDiffHistory := [0, 0] } flG poseFlat =
      { st := { initState with
                  centerHistory := [some (100, 790)]
                  angleHistory := [some 90]
                  timestampHistory := [104]
                  velocityHistory := [0]
                  accelerationHistory := [0]
                  stabilityScores := [1/2]
                  lyingStartTime := some 100
                  lastValidCenter := some (100, 790)
                  lastValidAngle := some 90
                  prevFrame := some 1
                  frameDiffHistory := [0, 0] }
        center := some (100, 790), angle := some 90, vspeed := 0, accel := 0, stab := 1/2 } := by
    unfold updateMetrics
    dsimp only
    rw [flat_center]
    rw [flat_angle ops h1 h2 h3]
    rw [flat_stab ops]
    · decide
    · decide
  unfold stepFrame
  dsimp only
  rw [show stepMotionStage cfgDefault (resetState flatS1) 1 flG =
        ((0:ℚ), { initState with
                    lyingStartTime := some 100
                    prevFrame := some 1
                    frameDiffHistory := [0, 0] }) from by decide]
  rw [show flG.pose = some poseFlat from rfl]
  dsimp only
  unfold processDetected
  dsimp only
  rw [hm]
  dsimp only [flG]
  unfold classifyAndGate
  dsimp only [Option.map]
  rw [flat_dps ops]
  decide

/-- Full evaluation of `process_frame` on `flG` from a fresh session: the
lying tracker starts only now, at 104, and no alert fires. -/
theorem stepFlatG_fresh (ops : RealOps) (h1 : ops.sqrtQ 6400 = 80)
    (h2 : ops.sqrtQ 1 = 1) (h3 : ops.arccosDeg 0 = 90) :
    stepFrame cfgDefault ops initState 0 flG =
      ({ flatS1 with timestampHistory := [104], lyingStartTime := some 104 }, flatR1) := by
  have hm : updateMetrics ops { initState with prevFrame := some 0, frameDiffHistory := [0] }
      flG poseFlat =
      { st := { initState with
                  centerHistory := [some (100, 790)]
                  angleHistory := [some 90]
                  timestampHistory := [104]
                  velocityHistory := [0]
                  accelerationHistory := [0]
                  stabilityScores := [1/2]
                  lastValidCenter := some (100, 790)
                  lastValidAngle := some 90
                  prevFrame := some 0
                  frameDiffHistory := [0] }
        center := some (100, 790), angle := some 90, vspeed := 0, accel := 0, stab := 1/2 } := by
    unfold updateMetrics
    dsimp only
    rw [flat_center]
    rw [flat_angle ops h1 h2 h3]
    rw [flat_stab ops]
    · decide
    · decide
  unfold stepFrame
  dsimp only
  rw [show stepMotionStage cfgDefault initState 0 flG =
        ((0:ℚ), { initState with prevFrame := some 0, frameDiffHistory := [0] }) from by decide]
  rw [show flG.pose = some poseFlat from rfl]
  dsimp only
  unfold processDetected
  dsimp only
  rw [hm]
  dsimp only [flG]
  unfold classifyAndGate
  dsimp only [Option.map]
  rw [flat_dps ops]
  decide

/-- Full evaluation of `process_frame` on `flB` after `flA`: the frame
classifies lying with stability 0.5 and zero speed, yet the motion gate
emits through the 1.5-threshold bypass. -/
theorem stepFlatB (ops : RealOps) (h1 : ops.sqrtQ 6400 = 80)
    (h2 : ops.sqrtQ 1 = 1) (h3 : ops.arccosDeg 0 = 90) :
    stepFrame cfgDefault ops flatS1 1 flB =
      ({ flatS1 with
           centerHistory := [some (100, 790), some (100, 790)]
           angleHistory := [some 90, some 90]
           timestampHistory := [100, 101]
           velocityHistory := [0, 0]
           accelerationHistory := [0, 0]
           stabilityScores := [1/2, 1/2]
           lastFallTime := 101
           fallConfirmed := true
           prevFrame := some 1
           frameDiffHistory := [0, 1/2, 1/2] },
       { fallDetected := true, fallEvent := some evFlatMotion, state := PoseState.lying,
         confidence := 19/20, angle := some 90, speed := 0, lyingDetected := false,
         lyingEvent := none, missingFramesOut := none }) := by
  have hm : updateMetrics ops
      { flatS1 with prevFrame := some 1, frameDiffHistory := [0, 1/2] } flB poseFlat =
      { st := { flatS1 with
                  centerHistory := [some (100, 790), some (100, 790)]
                  angleHistory := [some 90, some 90]
                  timestampHistory := [100, 101]
                  velocityHistory := [0, 0]
                  accelerationHistory := [0, 0]
                  stabilityScores := [1/2, 1/2]
                  prevFrame := some 1
                  frameDiffHistory := [0, 1/2] }
        center := some (100, 790), angle := some 90, vspeed := 0, accel := 0, stab := 1/2 } := by
    unfold updateMetrics
    dsimp only
    rw [flat_center]
    rw [flat_angle ops h1 h2 h3]
    rw [flat_stab ops]
    · decide
    · decide
  unfold stepFrame
  dsimp only
  rw [show stepMotionStage cfgDefault flatS1 1 flB =
        (((1:ℚ)/2), { flatS1 with prevFrame := some 1, frameDiffHistory := [0, 1/2] })
        from by decide]
  rw [show flB.pose = some poseFlat from rfl]
  dsimp only
  unfold processDetected
  dsimp only
  rw [hm]
  dsimp only [flB]
  unfold classifyAndGate
  dsimp only [Option.map]
  rw [flat_dps ops]
  decide

/-- The last entry of a capped append is the appended element, for any
positive capacity. -/
theorem capAppend_getD_last (cap : Nat) (hc : 1 ≤ cap) (l : List ℚ) (x : ℚ) :
    (capAppend cap l x).getD ((capAppend cap l x).length - 1) 0 = x := by
  unfold capAppend
  have hk : l.length + 1 - cap ≤ l.length := by omega
  rw [List.drop_append_of_le_length hk]
  have hlen : (l.drop (l.length + 1 - cap) ++ [x]).length =
      l.length - (l.length + 1 - cap) + 1 := by
    simp [List.length_drop]
  rw [hlen]
  have hidx : l.length - (l.length + 1 - cap) + 1 - 1 = l.length - (l.length + 1 - cap) := by
    omega
  rw [hidx]
  rw [List.getD_eq_getElem?_getD]
  rw [List.getElem?_append_right (by simp [List.length_drop])]
  simp [List.length_drop]

/-- On every successfully detected frame the acceleration signal is
identically zero: `process_frame` appends the current speed to the
velocity history before calling `_calculate_acceleration`, whose
`velocity_history[-1]` read therefore returns the current speed itself. -/
theorem updateMetrics_accel (ops : RealOps) (st : DetState) (inp : FrameInput) (p : Pose) :
    (updateMetrics ops st inp p).accel = 0 := by
  unfold updateMetrics
  dsimp only
  unfold calcAcceleration
  dsimp only
  split_ifs with h1 h2
  · rfl
  · rw [capAppend_getD_last 30 (by omega), sub_self, zero_div]
  · rfl

/-- With zero acceleration, downward speed at most 30 percent of the
threshold and stability at least 0.3, the fused fall confidence is at most
0.58: the angle contributes at most 0.30, the speed at most 0.075, the
instability at most 0.105 and the position bonus at most 0.10. -/
theorem fallConfidence_low (cfg : Config) (a vspeed stab : ℚ) (ny : Option ℚ)
    (ht : 0 < cfg.verticalSpeedThreshold) (hv : vspeed ≤ cfg.verticalSpeedThreshold * 0.3)
    (hs : 0.3 ≤ stab) :
    fallConfidence cfg (some a) vspeed 0 stab ny ≤ 0.58 := by
  unfold fallConfidence
  dsimp only
  rw [if_neg (show ¬ ((0:ℚ) > 0.5) by norm_num)]
  set A := (if a > 30 then min ((a - 30) / 60) 1 else 0) with hAdef
  set S := (if vspeed > 0 then min (vspeed / cfg.verticalSpeedThreshold) 1 else 0) with hSdef
  have hA : A ≤ 1 := by
    rw [hAdef]
    split_ifs
    · exact min_le_right _ _
    · norm_num
  have hS : S ≤ 0.3 := by
    rw [hSdef]
    split_ifs with h
    · refine le_trans (min_le_left _ _) ?_
      rw [div_le_iff ht]
      linarith
    · norm_num
  refine max_le (by norm_num) (le_trans (min_le_right _ _) ?_)
  rcases ny with _ | y
  · dsimp only
    linarith
  · dsimp only
    split_ifs with hy1 hy2
    · linarith
    · linarith
    · linarith

/-! Claim C6: posture voter plurality and ties. -/

/-- Claim C6, counterexample: with vote totals lying 3, sitting 0,
standing 3 the maximum is tied between lying and standing, so the claim
demands the standing default, yet the voter returns lying: the lying branch
only compares against the sitting total. -/
theorem c6_tie_counterexample :
    decidePosture 3 0 3 = PoseState.lying ∧
    decidePosture 3 0 3 ≠ PoseState.standing := by
  constructor
  · rfl
  · decide

/-- Claim C6, amended: a strict plurality always wins; among ties at the
maximum a lying-standing tie returns lying, a lying-sitting tie returns
sitting, and only a sitting-standing tie or a three-way tie falls back to
standing. -/
theorem c6_plurality_amended (l s t : Nat) :
    (l > s ∧ l > t → decidePosture l s t = PoseState.lying) ∧
    (s > l ∧ s > t → decidePosture l s t = PoseState.sitting) ∧
    (t > l ∧ t > s → decidePosture l s t = PoseState.standing) ∧
    (l = t ∧ s < l → decidePosture l s t = PoseState.lying) ∧
    (l = s ∧ t < l → decidePosture l s t = PoseState.sitting) ∧
    (s = t ∧ l < s → decidePosture l s t = PoseState.standing) ∧
    (l = s ∧ s = t → decidePosture l s t = PoseState.standing) := by
  unfold decidePosture
  dsimp only
  refine ⟨?_, ?_, ?_, ?_, ?_, ?_, ?_⟩ <;>
    (intro h; split_ifs with h1 h2 <;> first | rfl | omega)

/-- Claim C6, witness for the amended statement at concrete vote totals. -/
theorem c6_plurality_amended_witness :
    decidePosture 5 1 2 = PoseState.lying ∧
    decidePosture 0 4 4 = PoseState.standing :=
  ⟨(c6_plurality_amended 5 1 2).1 (by omega),
   (c6_plurality_amended 0 4 4).2.2.2.2.2.1 (by omega)⟩

/-! Claim C7: the motion spike detector. -/

/-- Claim C7: with at least one prior sample in the motion history, the
spike analysis flags a fall exactly when the magnitude jumped by more than
0.6 times the motion threshold over the previous sample, or the magnitude
alone exceeds 1.5 times the threshold, or it exceeds 1.0 times the
threshold while the previous sample was below 0.5 times the threshold. -/
theorem c7_spike_iff (thr : ℚ) (hist : List ℚ) (t m : ℚ) (h : hist ≠ []) :
    (analyzeMotionPattern thr hist t m).2 = true ↔
      (m - hist.getD (hist.length - 1) 0 > thr * 0.6 ∨ m > thr * 1.5 ∨
       (m > thr * 1.0 ∧ hist.getD (hist.length - 1) 0 < thr * 0.5)) := by
  have hL : 1 ≤ hist.length := List.length_pos.mpr h
  have hlen2 : ¬ (capAppend 10 hist m).length < 2 := by
    rw [capAppend_length]
    omega
  have hprev := capAppend_second_last hist m h
  unfold analyzeMotionPattern
  dsimp only
  rw [if_neg hlen2, hprev]
  split_ifs with h1 h2 h3 <;> simp_all

/-- Claim C7, witness: one prior quiet sample and a strong magnitude. -/
theorem c7_spike_iff_witness :
    (analyzeMotionPattern 0.15 [0.1] 0 0.5).2 = true :=
  (c7_spike_iff 0.15 [0.1] 0 0.5 (by simp)).mpr (by right; left; norm_num)

/-! Claim C10: constant confidences of the pose-based fall events. -/

/-- Claim C10: every event the pose gate emits carries confidence 0.9 when
the frame classifies as falling, and confidence 0.95 on the
falling-to-lying confirmation branch (the only other emitting branch),
independently of the fused fall-confidence score of the frame, which the
gate never consults. -/
theorem c10_event_confidence (cfg : Config) (st : DetState) (t : ℚ)
    (ns ps : PoseState) (c : Option (ℚ × ℚ)) (e : FallEvent)
    (h : (emitGatePose cfg st t ns ps c).2 = some e) :
    (ns = PoseState.falling → e.confidence = 0.9) ∧
    (ns ≠ PoseState.falling → e.confidence = 0.95) := by
  unfold emitGatePose at h
  dsimp only at h
  split_ifs at h with h1 h2 h3 h4
  · dsimp only at h
    injection h with h'
    subst h'
    exact ⟨fun _ => rfl, fun hne => absurd h1 hne⟩
  · dsimp only at h
    injection h with h'
    subst h'
    constructor
    · intro hf
      exact absurd hf (by simp [h3.1])
    · intro _
      rfl

/-- Claim C10, witness: both emitting branches fired at time 10 from the
initial state. -/
theorem c10_event_confidence_witness :
    evFall09.confidence = 0.9 ∧ evLying095.confidence = 0.95 :=
  ⟨(c10_event_confidence cfgDefault initState 10 PoseState.falling PoseState.unknown
      none evFall09 (by decide)).1 rfl,
   (c10_event_confidence cfgDefault initState 10 PoseState.lying PoseState.falling
      none evLying095 (by decide)).2 (by decide)⟩

/-! Claim C3: the falling conjunction gate. -/

/-- Claim C3, counterexample: the consequent of the claim, that a frame
which is not classified falling emits no fall event, fails.  After `flA`
the frame `flB` classifies lying with the stability score 0.5 at least 0.3
(visible as the last appended stability history entry) and zero downward
speed, yet `process_frame` emits a fall event on it through the motion
bypass.  The statement holds for every interpretation of the abstract
square root and arccosine returning the true values at the three arguments
the trace samples them at, values pinned by the leading real-analysis
conjuncts and realized by the executable interpretation `opsE`. -/
theorem c3_nofall_counterexample :
    Real.sqrt 6400 = 80 ∧ Real.sqrt 1 = 1 ∧ Real.arccos 0 / Real.pi * 180 = 90 ∧
    opsE.sqrtQ 6400 = 80 ∧ opsE.sqrtQ 1 = 1 ∧ opsE.arccosDeg 0 = 90 ∧
    (∀ ops : RealOps, ops.sqrtQ 6400 = 80 → ops.sqrtQ 1 = 1 → ops.arccosDeg 0 = 90 →
      (stepFrame cfgDefault ops (stepFrame cfgDefault ops initState 0 flA).1 1 flB).2.state =
          PoseState.lying ∧
      (stepFrame cfgDefault ops (stepFrame cfgDefault ops initState 0 flA).1 1 flB).2.state ≠
          PoseState.falling ∧
      (stepFrame cfgDefault ops (stepFrame cfgDefault ops initState 0 flA).1 1 flB).2.speed =
          0 ∧
      (stepFrame cfgDefault ops (stepFrame cfgDefault ops initState 0 flA).1 1
          flB).1.stabilityScores = [1/2, 1/2] ∧
      (stepFrame cfgDefault ops (stepFrame cfgDefault ops initState 0 flA).1 1
          flB).2.fallEvent = some evFlatMotion) := by
  refine ⟨?_, Real.sqrt_one, ?_, by decide, by decide, by decide, ?_⟩
  · rw [show (6400:ℝ) = 80^2 by norm_num]
    exact Real.sqrt_sq (by norm_num)
  · rw [Real.arccos_zero]
    field_simp
    ring
  · intro ops h1 h2 h3
    rw [stepFlatA ops h1 h2 h3]
    dsimp only
    rw [stepFlatB ops h1 h2 h3]
    refine ⟨by decide, by decide, by decide, by decide, by decide⟩

/-- Claim C3, amended: with a computable trunk angle the classifier
returns falling exactly when the fused confidence exceeds 0.6 and the
downward speed exceeds 30 percent of its threshold or the stability is
below 0.3, and the pose-based fall gates emit nothing on a frame that
neither classifies as falling nor follows a falling frame; but the motion
path can still emit on such a frame, and the hypothesized frame of the
claim is unreachable: on detected frames the acceleration signal is
identically zero, so under the claimed stability and velocity conditions
the fused confidence is at most 0.58 and can never equal 0.61. -/
theorem c3_falling_gate_amended (cfg : Config) (ops : RealOps) (a vspeed accel stab : ℚ)
    (kpc : Option Pose) (centerY frameHeight : Option ℚ) :
    (determinePoseState cfg ops (some a) vspeed accel stab kpc centerY frameHeight =
        PoseState.falling ↔
      (fallConfidence cfg (some a) vspeed accel stab (normalizedYOf centerY frameHeight) > 0.6 ∧
       (vspeed > cfg.verticalSpeedThreshold * 0.3 ∨ stab < 0.3))) ∧
    (fallConfidence cfg (some a) vspeed accel stab (normalizedYOf centerY frameHeight) = 0.61 →
      stab ≥ 0.3 → vspeed ≤ cfg.verticalSpeedThreshold * 0.3 →
      determinePoseState cfg ops (some a) vspeed accel stab kpc centerY frameHeight ≠
        PoseState.falling) ∧
    (∀ st t ns ps c, ns ≠ PoseState.falling → ps ≠ PoseState.falling →
      (emitGatePose cfg st t ns ps c).2 = none) ∧
    (∀ st inp p, (updateMetrics ops st inp p).accel = 0) ∧
    (0 < cfg.verticalSpeedThreshold → vspeed ≤ cfg.verticalSpeedThreshold * 0.3 →
      0.3 ≤ stab →
      fallConfidence cfg (some a) vspeed 0 stab (normalizedYOf centerY frameHeight) ≤ 0.58) := by
  have hiff : determinePoseState cfg ops (some a) vspeed accel stab kpc centerY frameHeight =
      PoseState.falling ↔
      (fallConfidence cfg (some a) vspeed accel stab (normalizedYOf centerY frameHeight) > 0.6 ∧
       (vspeed > cfg.verticalSpeedThreshold * 0.3 ∨ stab < 0.3)) := by
    unfold determinePoseState
    dsimp only
    by_cases hgate :
        fallConfidence cfg (some a) vspeed accel stab (normalizedYOf centerY frameHeight) > 0.6 ∧
          (vspeed > cfg.verticalSpeedThreshold * 0.3 ∨ stab < 0.3)
    · rw [if_pos hgate]
      exact ⟨fun _ => hgate, fun _ => rfl⟩
    · rw [if_neg hgate]
      exact ⟨fun hd => absurd hd (decidePosture_ne_falling _ _ _), fun hr => absurd hr hgate⟩
  refine ⟨hiff, ?_, ?_, ?_, ?_⟩
  · intro hfc hstab hsp hfall
    rcases (hiff.mp hfall).2 with hv | hs
    · linarith
    · linarith
  · intro st t ns ps c hns hps
    unfold emitGatePose
    rw [if_neg hns, if_neg (by intro hc; exact hps hc.2)]
  · intro st inp p
    exact updateMetrics_accel ops st inp p
  · intro ht hv hs
    exact fallConfidence_low cfg a vspeed stab (normalizedYOf centerY frameHeight) ht hv hs

/-- Claim C3, witness for the amended statement: a frame achieving fused
confidence exactly 0.61 through a nonzero acceleration input is not
classified falling; the acceleration of a concretely processed frame is
zero; and a concrete confidence instance respects the 0.58 cap. -/
theorem c3_falling_gate_amended_witness :
    determinePoseState cfgDefault opsW (some 90) 0 (21/20) 0.3 none (some 8) (some 10) ≠
        PoseState.falling ∧
    (updateMetrics opsW initState flA poseFlat).accel = 0 ∧
    fallConfidence cfgDefault (some 90) 0 0 0.3 (normalizedYOf (some 8) (some 10)) ≤ 0.58 :=
  ⟨(c3_falling_gate_amended cfgDefault opsW 90 0 (21/20) 0.3 none (some 8) (some 10)).2.1
      (by decide) (by norm_num) (by decide),
   (c3_falling_gate_amended cfgDefault opsW 90 0 (21/20) 0.3 none (some 8) (some 10)).2.2.2.1
      initState flA poseFlat,
   (c3_falling_gate_amended cfgDefault opsW 90 0 (21/20) 0.3 none (some 8) (some 10)).2.2.2.2
      (by decide) (by decide) (by decide)⟩

/-! Claim C9: malformed pose input. -/

/-- Claim C9, counterexample: a pose with only 5 of the 17 landmarks is
not rejected with a typed error.  The frame is processed as a successful
detection: the metric guards absorb the bad indices, every metric is
`None`, the posture is `Unknown`, the missing counter is reset to 0 and
the ordinary result dictionary is returned.  No `InvalidInput` value
exists anywhere in the engine. -/
theorem c9_invalid_counterexample :
    (stepFrame cfgDefault opsW initState 0 frBad).2.state = PoseState.unknown ∧
    (stepFrame cfgDefault opsW initState 0 frBad).2.angle = none ∧
    (stepFrame cfgDefault opsW initState 0 frBad).2.fallEvent = none ∧
    (stepFrame cfgDefault opsW initState 0 frBad).1.missingFrames = 0 ∧
    (stepFrame cfgDefault opsW initState 0 frBad).2.missingFramesOut = none := by
  refine ⟨?_, ?_, ?_, ?_, ?_⟩ <;> decide

/-- Claim C9, amended: malformed pose input is absorbed silently rather
than rejected.  With too few landmarks for the hip indices, the per-metric
exception guards return `None` everywhere, the frame counts as a
successful detection (missing counter reset to 0, ordinary result
dictionary), and the reported posture is `Unknown`. -/
theorem c9_malformed_amended (cfg : Config) (ops : RealOps) (st : DetState)
    (idx : Nat) (inp : FrameInput) (p : Pose) (hp : inp.pose = some p)
    (hk : p.kps.length ≤ 11) :
    (stepFrame cfg ops st idx inp).2.state = PoseState.unknown ∧
    (stepFrame cfg ops st idx inp).2.angle = none ∧
    (stepFrame cfg ops st idx inp).1.missingFrames = 0 ∧
    (stepFrame cfg ops st idx inp).2.missingFramesOut = none := by
  have hangle := getBodyAngle_none_of_short ops p.kps p.confs hk
  unfold stepFrame
  dsimp only
  rw [hp]
  dsimp only
  have hPD := processDetected_parts cfg ops (stepMotionStage cfg st idx inp).2 inp p
    (stepMotionStage cfg st idx inp).1
  have hum := updateMetrics_angle ops (stepMotionStage cfg st idx inp).2 inp p
  refine ⟨?_, ?_, ?_, ?_⟩
  · rw [hPD.2.2.1, classifyAndGate_state, hum, hangle]
    exact determinePoseState_none cfg ops _ _ _ _ _ _
  · rw [hPD.2.2.2.1, hum]
    exact hangle
  · rw [hPD.1, classifyAndGate_missingFrames]
    exact (updateMetrics_st ops _ inp p).1
  · exact hPD.2.2.2.2.1

/-- Claim C9, witness for the amended statement: the 5-landmark pose. -/
theorem c9_malformed_amended_witness :
    (stepFrame cfgDefault opsW initState 0 frBad).2.state = PoseState.unknown :=
  (c9_malformed_amended cfgDefault opsW initState 0 frBad poseBad rfl (by decide)).1

/-! Claim C5: missing-frame escalation. -/

/-- Claim C5: with the default allowance of 10, the first ten consecutive
missing frames retain the posture state and report the cached angle and
speed together with the running missing count, while the motion fallback
is still exercised (the difference history receives the re-detected
magnitude and then the zero of the self-differencing); the eleventh
missing frame resets the posture to `Unknown` and clears the fall start
time, the confirmation flag and the was-falling bookkeeping. -/
theorem c5_missing_escalation (cfg : Config) (ops : RealOps) (st : DetState)
    (idx : Nat) (inp : FrameInput) (hmax : cfg.maxMissingFrames = 10)
    (hpose : inp.pose = none) :
    (st.missingFrames + 1 ≤ 10 →
      (stepFrame cfg ops st idx inp).2.state = st.currentState ∧
      (stepFrame cfg ops st idx inp).2.angle = st.lastValidAngle ∧
      (stepFrame cfg ops st idx inp).2.speed = st.lastValidSpeed ∧
      (stepFrame cfg ops st idx inp).2.missingFramesOut = some (st.missingFrames + 1)) ∧
    (st.missingFrames + 1 = 11 →
      (stepFrame cfg ops st idx inp).2.state = PoseState.unknown ∧
      (stepFrame cfg ops st idx inp).1.currentState = PoseState.unknown ∧
      (stepFrame cfg ops st idx inp).1.fallStartTime = none ∧
      (stepFrame cfg ops st idx inp).1.fallConfirmed = false ∧
      (stepFrame cfg ops st idx inp).1.wasFallingBeforeMissing = false) ∧
    (cfg.useMotionFallback = true →
      (stepFrame cfg ops st idx inp).1.frameDiffHistory =
        capAppend 10 (capAppend 10 st.frameDiffHistory
          (detectMotion st idx inp.motionMag).1) 0) := by
  have hP := stepMotionStage_frame cfg st idx inp
  unfold stepFrame
  dsimp only
  rw [hpose]
  dsimp only
  set stM : DetState :=
    { (stepMotionStage cfg st idx inp).2 with
      missingFrames := (stepMotionStage cfg st idx inp).2.missingFrames + 1 } with hstM
  have hmfM : stM.missingFrames = st.missingFrames + 1 := by
    show (stepMotionStage cfg st idx inp).2.missingFrames + 1 = st.missingFrames + 1
    rw [hP.1]
  refine ⟨fun hle => ?_, fun heq => ?_, fun hu => ?_⟩
  · have hs : stM.missingFrames ≤ cfg.maxMissingFrames := by
      rw [hmfM, hmax]
      exact hle
    have hH := handleMissing_short cfg stM idx inp hs
    refine ⟨?_, ?_, ?_, ?_⟩
    · rw [hH.1]
      show (stepMotionStage cfg st idx inp).2.currentState = st.currentState
      exact hP.2.1
    · rw [hH.2.1]
      show (stepMotionStage cfg st idx inp).2.lastValidAngle = st.lastValidAngle
      exact hP.2.2.2.2.1
    · rw [hH.2.2.1]
      show (stepMotionStage cfg st idx inp).2.lastValidSpeed = st.lastValidSpeed
      exact hP.2.2.2.2.2
    · rw [hH.2.2.2.1, hmfM]
  · have hs : ¬ stM.missingFrames ≤ cfg.maxMissingFrames := by
      rw [hmfM, hmax, heq]
      omega
    have hH := handleMissing_long cfg stM idx inp hs
    exact ⟨hH.1, hH.2.2.2.2.1, hH.2.2.2.2.2.1, hH.2.2.2.2.2.2.1, hH.2.2.2.2.2.2.2⟩
  · rw [handleMissing_frameDiff]
    unfold missingMotionStage
    rw [if_pos hu]
    dsimp only
    rw [analyzeMotionPattern_fst]
    have hprev : stM.prevFrame = some idx := by
      show (stepMotionStage cfg st idx inp).2.prevFrame = some idx
      unfold stepMotionStage
      rw [if_pos hu]
      dsimp only
      exact detectMotion_prevFrame st idx inp.motionMag
    rw [detectMotion_same stM idx inp.motionMag hprev]
    rw [(detectMotion_frame stM idx inp.motionMag).2.2.2.2.2.2.2.2]
    congr 1
    show (stepMotionStage cfg st idx inp).2.frameDiffHistory =
      capAppend 10 st.frameDiffHistory (detectMotion st idx inp.motionMag).1
    unfold stepMotionStage
    rw [if_pos hu]
    dsimp only
    rw [(detectMotion_frame st idx inp.motionMag).2.2.2.2.2.2.2.2]

/-- Claim C5, witness: the first missing frame from a fresh session stays
in the short-gap branch, and a session with ten missing frames already
counted resets on the next one. -/
theorem c5_missing_escalation_witness :
    (stepFrame cfgDefault opsW initState 3 (frMiss 50)).2.missingFramesOut = some 1 ∧
    (stepFrame cfgDefault opsW { initState with missingFrames := 10 } 3
        (frMiss 50)).2.state = PoseState.unknown :=
  ⟨((c5_missing_escalation cfgDefault opsW initState 3 (frMiss 50) rfl rfl).1
      (by decide)).2.2.2,
   ((c5_missing_escalation cfgDefault opsW { initState with missingFrames := 10 } 3
        (frMiss 50) rfl rfl).2.1 (by decide)).1⟩

/-! Claim C8: graceful degradation on zero-confidence landmarks. -/

/-- All-zero landmark confidences abort the trunk-angle extraction at the
first confidence gate. -/
theorem getBodyAngle_none_of_zero (ops : RealOps) (kp : List (ℚ × ℚ)) (conf : List ℚ)
    (hc : ∀ c ∈ conf, c = 0) : getBodyAngle ops kp conf = none := by
  unfold getBodyAngle
  rcases h5 : kp.get? 5 with _ | ls
  · simp [h5]
  rcases h6 : kp.get? 6 with _ | rs
  · simp [h5, h6]
  rcases h11 : kp.get? 11 with _ | lh
  · simp [h5, h6, h11]
  rcases h12 : kp.get? 12 with _ | rh
  · simp [h5, h6, h11, h12]
  rcases hc5 : conf.get? 5 with _ | c5
  · simp [h5, h6, h11, h12, hc5]
  · have h0 : c5 = 0 := hc c5 (List.get?_mem hc5)
    subst h0
    simp [h5, h6, h11, h12, hc5]
    norm_num

/-- With an unknown classification and no motion signal the whole
classification stage stays silent. -/
theorem classifyAndGate_quiet (cfg : Config) (ops : RealOps) (m : MetricsOut)
    (inp : FrameInput) (p : Pose)
    (hns : determinePoseState cfg ops m.angle m.vspeed m.accel m.stab (some p)
      (m.center.map Prod.snd) (some inp.frameHeight) = PoseState.unknown) :
    (classifyAndGate cfg ops m inp p 0).2.1 = none ∧
    (classifyAndGate cfg ops m inp p 0).2.2.1 = false ∧
    (classifyAndGate cfg ops m inp p 0).2.2.2.1 = none := by
  unfold classifyAndGate
  dsimp only
  rw [hns]
  exact fallPipeline_quiet cfg _ inp.time PoseState.unknown m.st.currentState m.center
    m.accel m.stab m.vspeed _ inp.frameWidth inp.frameHeight (by decide) (by decide)

/-- One frame step on a zero-confidence, zero-motion frame reports the
unknown posture and emits nothing, from any session state. -/
theorem stepFrame_zeroConf (cfg : Config) (ops : RealOps) (st : DetState) (idx : Nat)
    (inp : FrameInput) (h : ZeroConfFrame inp) :
    (stepFrame cfg ops st idx inp).2.state = PoseState.unknown ∧
    (stepFrame cfg ops st idx inp).2.fallDetected = false ∧
    (stepFrame cfg ops st idx inp).2.fallEvent = none ∧
    (stepFrame cfg ops st idx inp).2.lyingDetected = false ∧
    (stepFrame cfg ops st idx inp).2.lyingEvent = none := by
  obtain ⟨hmag, p, hp, hzero⟩ := h
  have hangle := getBodyAngle_none_of_zero ops p.kps p.confs hzero
  have hmm := stepMotionStage_zero cfg st idx inp hmag
  unfold stepFrame
  dsimp only
  rw [hp]
  dsimp only
  rw [hmm]
  have hPD := processDetected_parts cfg ops (stepMotionStage cfg st idx inp).2 inp p 0
  have hstate : (classifyAndGate cfg ops
      (updateMetrics ops (stepMotionStage cfg st idx inp).2 inp p) inp p 0).2.2.2.2 =
      PoseState.unknown := by
    rw [classifyAndGate_state, updateMetrics_angle, hangle]
    exact determinePoseState_none cfg ops _ _ _ _ _ _
  have hq := classifyAndGate_quiet cfg ops
    (updateMetrics ops (stepMotionStage cfg st idx inp).2 inp p) inp p
    (by rw [← classifyAndGate_state cfg ops _ inp p 0]; exact hstate)
  refine ⟨?_, ?_, ?_, ?_, ?_⟩
  · rw [hPD.2.2.1]
    exact hstate
  · rw [hPD.2.2.2.2.2.1, hq.1]
    rfl
  · rw [hPD.2.1]
    exact hq.1
  · rw [hPD.2.2.2.2.2.2.1]
    exact hq.2.1
  · rw [hPD.2.2.2.2.2.2.2]
    exact hq.2.2

/-- Claim C8, counterexample: a sequence of frames whose pose landmarks
all carry zero confidence still produces a fall event when the
frame-differencing fallback reports a large motion spike; the posture is
reported `Unknown` while the motion gate emits on the second frame. -/
theorem c8_zero_conf_counterexample :
    ((runFrames cfgDefault opsW initState 0 [zA, zSpike]).2.getD 1 default).fallDetected =
      true ∧
    ((runFrames cfgDefault opsW initState 0 [zA, zSpike]).2.getD 1 default).state =
      PoseState.unknown := by
  constructor <;> decide

/-- Claim C8, amended: with all-zero-confidence landmarks and no motion
signal (identical consecutive frames), every frame reports the unknown
posture and neither a fall event nor a lying event is emitted; the step
function is total, so no exception path exists.  Without the zero-motion
restriction, the motion fallback can still emit (see the
counterexample). -/
theorem c8_zero_conf_amended (cfg : Config) (ops : RealOps)
    (inputs : List FrameInput) (h : ∀ inp ∈ inputs, ZeroConfFrame inp) :
    ∀ st idx r, r ∈ (runFrames cfg ops st idx inputs).2 →
      r.state = PoseState.unknown ∧ r.fallDetected = false ∧ r.fallEvent = none ∧
      r.lyingDetected = false ∧ r.lyingEvent = none := by
  induction inputs with
  | nil =>
      intro st idx r hr
      simp [runFrames] at hr
  | cons inp rest ih =>
      intro st idx r hr
      simp only [runFrames] at hr
      rcases List.mem_cons.mp hr with hhead | htail
      · subst hhead
        exact stepFrame_zeroConf cfg ops st idx inp (h inp (by simp))
      · exact ih (fun i hi => h i (by simp [hi])) _ _ r htail

/-- Claim C8, witness for the amended statement: two identical
zero-confidence frames. -/
theorem c8_zero_conf_amended_witness :
    ((runFrames cfgDefault opsW initState 0 [zA, zB]).2.getD 0 default).state =
      PoseState.unknown :=
  (c8_zero_conf_amended cfgDefault opsW [zA, zB]
    (by
      intro i hi
      simp at hi
      rcases hi with rfl | rfl
      · exact ⟨rfl, poseZero, rfl, by decide⟩
      · exact ⟨rfl, poseZero, rfl, by decide⟩)
    initState 0 _ (by decide)).1

/-! Claim C4: clearing of the fall-confirmation flag. -/

/-- Claim C4, counterexample: a session confirms a fall on the second
frame, then loses detection; after ten short-gap missing frames the flag
is still set, and the eleventh missing frame (the long-gap reset) clears
the flag while reporting the `Unknown` posture, not standing or
sitting. -/
theorem c4_fall_confirmed_counterexample :
    (runFrames cfgDefault opsW initState 0 (c4Inputs.take 12)).1.fallConfirmed = true ∧
    (stepFrame cfgDefault opsW (runFrames cfgDefault opsW initState 0 (c4Inputs.take 12)).1
        12 (frMiss 112)).1.fallConfirmed = false ∧
    (stepFrame cfgDefault opsW (runFrames cfgDefault opsW initState 0 (c4Inputs.take 12)).1
        12 (frMiss 112)).2.state = PoseState.unknown := by
  refine ⟨?_, ?_, ?_⟩ <;> decide

/-- Claim C4, amended: the confirmation flag falls from true to false only
on a frame reported standing or sitting, or on the long-gap reset frame of
the missing-detection handler, which reports `Unknown` once the
consecutive missing count exceeds the allowance; short-gap missing frames
and detected `Unknown` frames never clear it. -/
theorem c4_fall_confirmed_amended (cfg : Config) (ops : RealOps) (st : DetState)
    (idx : Nat) (inp : FrameInput) (htrue : st.fallConfirmed = true)
    (hclear : (stepFrame cfg ops st idx inp).1.fallConfirmed = false) :
    (stepFrame cfg ops st idx inp).2.state = PoseState.standing ∨
    (stepFrame cfg ops st idx inp).2.state = PoseState.sitting ∨
    (inp.pose = none ∧ ¬ st.missingFrames + 1 ≤ cfg.maxMissingFrames) := by
  rcases stepFrame_confirmed cfg ops st idx inp hclear with h | h | h | h
  · rw [htrue] at h
    exact absurd h (by simp)
  · exact Or.inl h
  · exact Or.inr (Or.inl h)
  · exact Or.inr (Or.inr h)

/-- Claim C4, witness: a confirmed session at the missing allowance is
cleared by the next missing frame through the long-gap reset. -/
theorem c4_fall_confirmed_amended_witness :
    (stepFrame cfgDefault opsW
        { initState with fallConfirmed := true, missingFrames := 10 } 0
        (frMiss 50)).2.state = PoseState.standing ∨
    (stepFrame cfgDefault opsW
        { initState with fallConfirmed := true, missingFrames := 10 } 0
        (frMiss 50)).2.state = PoseState.sitting ∨
    ((frMiss 50).pose = none ∧
      ¬ ({ initState with fallConfirmed := true, missingFrames := 10 } :
          DetState).missingFrames + 1 ≤ cfgDefault.maxMissingFrames) :=
  c4_fall_confirmed_amended cfgDefault opsW
    { initState with fallConfirmed := true, missingFrames := 10 } 0 (frMiss 50)
    rfl (by decide)

/-! Claim C1: monotonic cooldown of fall events. -/

/-- The session fall clock never moves backwards under a nonnegative
cooldown. -/
theorem stepFrame_lastFall_mono (cfg : Config) (ops : RealOps) (st : DetState)
    (idx : Nat) (inp : FrameInput) (hcd : 0 ≤ cfg.cooldownSeconds) :
    st.lastFallTime ≤ (stepFrame cfg ops st idx inp).1.lastFallTime := by
  rcases hev : (stepFrame cfg ops st idx inp).2.fallEvent with _ | e
  · rcases (stepFrame_spec cfg ops st idx inp).2 hev with h | ⟨ha, hb⟩
    · rw [h]
    · rw [ha]
      linarith
  · obtain ⟨_, hb, hc⟩ := (stepFrame_spec cfg ops st idx inp).1 e hev
    rw [hc]
    linarith

/-- Every event of a run is stamped at least one cooldown after the fall
clock of the starting state. -/
theorem runFrames_event_ge (cfg : Config) (ops : RealOps)
    (hcd : 0 ≤ cfg.cooldownSeconds) :
    ∀ (inputs : List FrameInput) (st : DetState) (idx i : Nat) (e : FallEvent),
      ((runFrames cfg ops st idx inputs).2[i]?).bind FrameResult.fallEvent = some e →
      st.lastFallTime + cfg.cooldownSeconds ≤ e.timestamp := by
  intro inputs
  induction inputs with
  | nil =>
      intro st idx i e h
      simp [runFrames] at h
  | cons inp rest ih =>
      intro st idx i e h
      simp only [runFrames] at h
      cases i with
      | zero =>
          simp only [List.getElem?_cons_zero, Option.some_bind] at h
          obtain ⟨h1, h2, _⟩ := (stepFrame_spec cfg ops st idx inp).1 e h
          rw [h1]
          exact h2
      | succ j =>
          simp only [List.getElem?_cons_succ] at h
          have htail := ih (stepFrame cfg ops st idx inp).1 (idx + 1) j e h
          have hmono := stepFrame_lastFall_mono cfg ops st idx inp hcd
          linarith

/-- Any two events of one run are separated by at least the cooldown. -/
theorem runFrames_gap (cfg : Config) (ops : RealOps) (hcd : 0 ≤ cfg.cooldownSeconds) :
    ∀ (inputs : List FrameInput) (st : DetState) (idx i j : Nat) (e1 e2 : FallEvent),
      i < j →
      ((runFrames cfg ops st idx inputs).2[i]?).bind FrameResult.fallEvent = some e1 →
      ((runFrames cfg ops st idx inputs).2[j]?).bind FrameResult.fallEvent = some e2 →
      e1.timestamp + cfg.cooldownSeconds ≤ e2.timestamp := by
  intro inputs
  induction inputs with
  | nil =>
      intro st idx i j e1 e2 hij h1 h2
      simp [runFrames] at h1
  | cons inp rest ih =>
      intro st idx i j e1 e2 hij h1 h2
      simp only [runFrames] at h1 h2
      cases j with
      | zero => omega
      | succ j' =>
          simp only [List.getElem?_cons_succ] at h2
          cases i with
          | zero =>
              simp only [List.getElem?_cons_zero, Option.some_bind] at h1
              obtain ⟨hts, hcool, hlf⟩ := (stepFrame_spec cfg ops st idx inp).1 e1 h1
              have htail := runFrames_event_ge cfg ops hcd rest
                (stepFrame cfg ops st idx inp).1 (idx + 1) j' e2 h2
              rw [hlf, ← hts] at htail
              exact htail
          | succ i' =>
              simp only [List.getElem?_cons_succ] at h1
              exact ih (stepFrame cfg ops st idx inp).1 (idx + 1) i' j' e1 e2
                (by omega) h1 h2

/-- Claim C1: in a session driven from the initial state, no two emitted
fall events are closer together than the cooldown.  Every emission path of
the step (pose falling branch, falling-to-lying confirmation, the motion
gate with a pose present and both fallback paths of the missing handler)
checks the cooldown against the session fall clock and advances that clock
to the emission time, and the clock never moves otherwise except to an
emission-eligible time whose event was discarded by the long-gap reset. -/
theorem c1_cooldown (cfg : Config) (ops : RealOps) (inputs : List FrameInput)
    (i j : Nat) (e1 e2 : FallEvent) (hcd : 0 ≤ cfg.cooldownSeconds) (hij : i < j)
    (h1 : ((runFrames cfg ops initState 0 inputs).2[i]?).bind FrameResult.fallEvent =
      some e1)
    (h2 : ((runFrames cfg ops initState 0 inputs).2[j]?).bind FrameResult.fallEvent =
      some e2) :
    cfg.cooldownSeconds ≤ e2.timestamp - e1.timestamp := by
  have h := runFrames_gap cfg ops hcd inputs initState 0 i j e1 e2 hij h1 h2
  linarith

/-- Claim C1, witness: a three-frame session whose second and third frames
both emit motion-gate fall events, 99 seconds apart. -/
theorem c1_cooldown_witness :
    cfgDefault.cooldownSeconds ≤ evC.timestamp - evB.timestamp :=
  c1_cooldown cfgDefault opsW [frA, frB, frC] 1 2 evB evC (by decide) (by omega)
    (by decide) (by decide)

/-! Claim C2: reset versus a fresh session. -/

/-- Claim C2, counterexample: a session observes the flat lying frame
`flA` at time 100 and is reset; the reset keeps `lying_start_time`, so the
lying frame `flG` at time 104 immediately raises the prolonged-lying
alert with a 4-second duration, while a fresh session given the same
frame raises none.  The reset session and the fresh session therefore
disagree on the very first frame after the reset.  The statement holds
for every interpretation of the abstract square root and arccosine
returning the true values at the three arguments the traces sample them
at, values pinned by the leading real-analysis conjuncts and realized by
the executable interpretation `opsE`. -/
theorem c2_reset_counterexample :
    Real.sqrt 6400 = 80 ∧ Real.sqrt 1 = 1 ∧ Real.arccos 0 / Real.pi * 180 = 90 ∧
    opsE.sqrtQ 6400 = 80 ∧ opsE.sqrtQ 1 = 1 ∧ opsE.arccosDeg 0 = 90 ∧
    (∀ ops : RealOps, ops.sqrtQ 6400 = 80 → ops.sqrtQ 1 = 1 → ops.arccosDeg 0 = 90 →
      (stepFrame cfgDefault ops
          (resetState (stepFrame cfgDefault ops initState 0 flA).1) 1 flG).2.lyingDetected =
          true ∧
      (stepFrame cfgDefault ops
          (resetState (stepFrame cfgDefault ops initState 0 flA).1) 1 flG).2.lyingEvent =
        some evFlatAlert ∧
      (stepFrame cfgDefault ops initState 0 flG).2.lyingDetected = false ∧
      (stepFrame cfgDefault ops initState 0 flG).2.lyingEvent = none) := by
  refine ⟨?_, Real.sqrt_one, ?_, by decide, by decide, by decide, ?_⟩
  · rw [show (6400:ℝ) = 80^2 by norm_num]
    exact Real.sqrt_sq (by norm_num)
  · rw [Real.arccos_zero]
    field_simp
    ring
  · intro ops h1 h2 h3
    rw [stepFlatA ops h1 h2 h3]
    dsimp only
    rw [stepFlatG_afterReset ops h1 h2 h3, stepFlatG_fresh ops h1 h2 h3]
    refine ⟨by decide, by decide, by decide, by decide⟩

/-- Claim C2, amended: `reset` clears the histories, the posture state, the
missing-frame bookkeeping and the fall-in-progress flags, but preserves
`last_fall_time`, the lying-alert tracking and the frame-differencing
state; a reset session coincides with a fresh one exactly when those
preserved fields already hold their initial values. -/
theorem c2_reset_amended (st : DetState) (h1 : st.lastFallTime = 0)
    (h2 : st.lyingStartTime = none) (h3 : st.lastLyingAlertTime = 0)
    (h4 : st.prevFrame = none) (h5 : st.frameDiffHistory = []) :
    resetState st = initState := by
  cases st
  simp_all [resetState, initState]

/-- Claim C2, witness: resetting the initial state is the identity. -/
theorem c2_reset_amended_witness : resetState initState = initState :=
  c2_reset_amended initState rfl rfl rfl rfl rfl

end FallDetection
